import Mathlib

/-!
Verification of the ChatBot repository (Express backend + React client).

The development shallowly embeds the parts of the code that the claims
touch:

* `src/server/storage.ts` (`MemStorage`): in-memory user / user-session /
  chat-history store, embedded as a record of total maps.
* `src/server/routes.ts` and the variant route file (`src/unnamed/part_011`):
  the `/api/chat` handler with its response-shape normalization, the
  retry-with-backoff loop, the mock response generator,
  `formatChatbotResponse`, `requireAuth`, and the `/api/proxy/pdf/:fileId`
  endpoint.
* `src/client/src/components/document-preview.tsx`: the page-highlight
  decision of `renderPage` / `addHighlightOverlay`.

Modelling conventions:

* JavaScript strings are `List Char`.
* JSON values are the inductive `Jval`; `undefined` is `Option.none` where
  a field may be absent.
* `JSON.parse` is an environment primitive, passed as an oracle of type
  `JsonParse`; theorems constrain it only through explicit hypotheses that
  hold of the real parser (for instance that a markdown-fenced string is
  not valid JSON).
* The JavaScript regexes of the code are embedded as executable scan
  functions whose behaviour matches the regex semantics (leftmost match,
  lazy capture with a literal delimiter, `g`-flag resumption after the
  matched region, dot not matching a newline).
* `Date.now()` / `new Date()` and `randomUUID()` are passed in explicitly.
-/

namespace ChatBot

/-! ### Basic string machinery (JavaScript strings as `List Char`) -/

/-- Whitespace as JavaScript `\s` sees it (ASCII range plus NBSP; the
remaining Unicode space code points never occur in the embedded data). -/
def isWsJS (c : Char) : Bool :=
  c = ' ' ∨ c = '\t' ∨ c = '\n' ∨ c.toNat = 11 ∨ c.toNat = 12 ∨ c = '\r' ∨ c.toNat = 0xa0

/-- `String.prototype.trim` (leading part). -/
def trimLeftJS (s : List Char) : List Char := s.dropWhile isWsJS

/-- `String.prototype.trim` (trailing part). -/
def trimRightJS (s : List Char) : List Char := (s.reverse.dropWhile isWsJS).reverse

/-- `String.prototype.trim`. -/
def trimJS (s : List Char) : List Char := trimRightJS (trimLeftJS s)

/-- `haystack.includes(pat)`. -/
def containsSub (pat : List Char) : List Char → Bool
  | [] => pat.isEmpty
  | c :: cs => pat.isPrefixOf (c :: cs) || containsSub pat cs

/-- Split a string at the first occurrence of the substring `pat`,
returning the text before it and the text after it. -/
def splitAtSub (pat : List Char) : List Char → Option (List Char × List Char)
  | [] => if pat.isEmpty then some ([], []) else none
  | c :: cs =>
      if pat.isPrefixOf (c :: cs) then some ([], (c :: cs).drop pat.length)
      else match splitAtSub pat cs with
        | some (pre, post) => some (c :: pre, post)
        | none => none

/-- `String.prototype.split('\n')`. -/
def splitNl : List Char → List (List Char)
  | [] => [[]]
  | c :: cs =>
      let r := splitNl cs
      if c = '\n' then [] :: r
      else match r with
        | [] => [[c]]
        | h :: t => (c :: h) :: t

/-- `Array.prototype.join(sep)` on a list of strings. -/
def joinSep (sep : List Char) (xs : List (List Char)) : List Char :=
  List.intercalate sep xs

/-- `String.prototype.toLowerCase()` (ASCII; the embedded data is ASCII). -/
def toLowerStr (s : List Char) : List Char := s.map Char.toLower

/-- Sentence-splitting punctuation class `[.!?]` used by
`formatChatbotResponse`. -/
def isPunctJS (c : Char) : Bool := c = '.' ∨ c = '!' ∨ c = '?'

/-- `String.prototype.split(/[.!?]+/)`: a maximal run of `.`, `!`, `?`
acts as one separator, and empty segments at the ends are kept, as in
JavaScript. -/
def splitPunct : List Char → List (List Char)
  | [] => [[]]
  | c :: cs =>
      let r := splitPunct cs
      if isPunctJS c then
        match cs with
        | c2 :: _ => if isPunctJS c2 then r else [] :: r
        | [] => [] :: r
      else match r with
        | [] => [[c]]
        | h :: t => (c :: h) :: t

/-! ### Markdown code-fence extraction

The two route files use the regexes
`/```(?:json)?\s*([\s\S]*?)```/`        (variant route file, `part_011`) and
`/```(?:json)?\s*([\s\S]*?)\s*```+/`    (`routes.ts`)
to pull the JSON out of a fenced block.  By the leftmost-match / lazy-capture
semantics, the capture starts after the first "```", an optional literal
"json" and a maximal whitespace run, and ends at the first following "```"
(for the second regex, additionally stripped of trailing whitespace, which
the greedy `\s*` before the closing fence absorbs). -/

/-- The three-backtick fence delimiter. -/
def fenceTok : List Char := ['`', '`', '`']

/-- Strip one optional literal `json` tag, as `(?:json)?` does. -/
def dropJsonTag (s : List Char) : List Char :=
  if ("json".toList).isPrefixOf s then s.drop 4 else s

/-- Capture group of `/```(?:json)?\s*([\s\S]*?)```/` (`part_011` variant),
`none` when the regex does not match. -/
def extractFencedP11 (s : List Char) : Option (List Char) :=
  match splitAtSub fenceTok s with
  | none => none
  | some (_, rest) =>
      let body := trimLeftJS (dropJsonTag rest)
      match splitAtSub fenceTok body with
      | none => none
      | some (cap, _) => some cap

/-- Capture group of `/```(?:json)?\s*([\s\S]*?)\s*```+/` (`routes.ts`),
`none` when the regex does not match. -/
def extractFencedRT (s : List Char) : Option (List Char) :=
  (extractFencedP11 s).map trimRightJS

/-! ### `g`-flag pair stripping

`.replace(/\*(.*?)\*/g, '$1')`, `.replace(/```(.*?)```/g, '$1')` and
`.replace(/`(.*?)`/g, '$1')` delete matched delimiter pairs whose contents
stay on one line (`.` does not match `\n`), keeping the contents.  The scan
resumes after each match and advances one character when an opening
delimiter has no closing delimiter on its line. -/

/-- Find the first occurrence of `delim` with no `'\n'` before it; return
the text before it and the text after it. -/
def findCloseSameLine (delim : List Char) : List Char → Option (List Char × List Char)
  | [] => if delim.isEmpty then some ([], []) else none
  | c :: cs =>
      if delim.isPrefixOf (c :: cs) then some ([], (c :: cs).drop delim.length)
      else if c = '\n' then none
      else match findCloseSameLine delim cs with
        | some (mid, rest) => some (c :: mid, rest)
        | none => none

/-- One `g`-flag pass of `.replace(new RegExp(d + '(.*?)' + d, 'g'), '$1')`
for a literal delimiter `d`, driven by a fuel counter (the input length
plus one always suffices). -/
def stripPairsGo (delim : List Char) : Nat → List Char → List Char
  | 0, l => l
  | _ + 1, [] => []
  | fuel + 1, c :: cs =>
      if delim.isPrefixOf (c :: cs) then
        match findCloseSameLine delim ((c :: cs).drop delim.length) with
        | some (mid, rest) => mid ++ stripPairsGo delim fuel rest
        | none => c :: stripPairsGo delim fuel cs
      else c :: stripPairsGo delim fuel cs

/-- `.replace(/\*(.*?)\*/g, '$1')` and friends. -/
def stripPairs (delim : List Char) (s : List Char) : List Char :=
  stripPairsGo delim (s.length + 1) s

/-! ### Whitespace clean-up chains -/

/-- `.replace(/[\x00-\x08\x0B\x0C\x0E-\x1F\x7F-\x9F]/g, '')`. -/
def removeCtrl (s : List Char) : List Char :=
  s.filter fun c =>
    ¬(c.toNat ≤ 8 ∨ c.toNat = 0xb ∨ c.toNat = 0xc ∨
      (0xe ≤ c.toNat ∧ c.toNat ≤ 0x1f) ∨ (0x7f ≤ c.toNat ∧ c.toNat ≤ 0x9f))

/-- `.replace(/\r\n/g, '\n')`. -/
def replCRLF : List Char → List Char
  | [] => []
  | '\r' :: '\n' :: cs => '\n' :: replCRLF cs
  | c :: cs => c :: replCRLF cs

/-- `.replace(/\r/g, '\n')`. -/
def replCR (s : List Char) : List Char :=
  s.map fun c => if c = '\r' then '\n' else c

/-- `.replace(/\t/g, ' ')`. -/
def replTab (s : List Char) : List Char :=
  s.map fun c => if c = '\t' then ' ' else c

/-- `.replace(/\n/g, ' ')`. -/
def replNl (s : List Char) : List Char :=
  s.map fun c => if c = '\n' then ' ' else c

/-- `.replace(/\r/g, ' ')`. -/
def replCRSpace (s : List Char) : List Char :=
  s.map fun c => if c = '\r' then ' ' else c

/-- After an initial `'\n'`, match the greedy-with-backtracking `\s*\n`:
consume the longest whitespace prefix that ends right before a `'\n'`,
returning the rest, or `none` when no such `'\n'` exists. -/
def wsNlScan : List Char → Option (List Char)
  | [] => none
  | c :: cs =>
      if c = '\n' then
        match wsNlScan cs with
        | some r => some r
        | none => some cs
      else if isWsJS c then wsNlScan cs
      else none

/-- `.replace(/\n\s*\n/g, '\n')`, fuel-driven (input length suffices). -/
def collapseEmptyLinesGo : Nat → List Char → List Char
  | 0, l => l
  | _ + 1, [] => []
  | fuel + 1, c :: cs =>
      if c = '\n' then
        match wsNlScan cs with
        | some rest => '\n' :: collapseEmptyLinesGo fuel rest
        | none => c :: collapseEmptyLinesGo fuel cs
      else c :: collapseEmptyLinesGo fuel cs

/-- `.replace(/\n\s*\n/g, '\n')`. -/
def collapseEmptyLines (s : List Char) : List Char :=
  collapseEmptyLinesGo (s.length + 1) s

/-- Worker for `.replace(/\s+/g, ' ')`; the flag records whether the
previous character was whitespace (already emitted as one space). -/
def collapseWsGo : Bool → List Char → List Char
  | _, [] => []
  | prevWs, c :: cs =>
      if isWsJS c then
        (if prevWs then [] else [' ']) ++ collapseWsGo true cs
      else c :: collapseWsGo false cs

/-- `.replace(/\s+/g, ' ')`. -/
def collapseWs (s : List Char) : List Char := collapseWsGo false s

/-- The clean-up chain of `routes.ts` applied to the fenced capture:
`jsonMatch[1].trim()` followed by control-character removal, line-ending
normalization, tab replacement, empty-line removal, whitespace collapsing
and a final trim. -/
def cleanRT (cap : List Char) : List Char :=
  trimJS (collapseWs (collapseEmptyLines (replTab (replCR (replCRLF (removeCtrl (trimJS cap)))))))

/-- The clean-up chain of the `part_011` variant:
`.replace(/\n/g,' ').replace(/\r/g,' ').replace(/\t/g,' ')
 .replace(/\s+/g,' ').trim()`. -/
def cleanP11 (s : List Char) : List Char :=
  trimJS (collapseWs (replTab (replCRSpace (replNl s))))

/-- The answer clean-up of `routes.ts`:
`.replace(/\*(.*?)\*/g,'$1').replace(/```(.*?)```/g,'$1')
 .replace(/`(.*?)`/g,'$1')`. -/
def cleanAnswerRT (a : List Char) : List Char :=
  stripPairs ['`'] (stripPairs fenceTok (stripPairs ['*'] a))

/-! ### JSON values and JavaScript coercions -/

/-- JSON values (numbers restricted to integers: every number occurring in
the embedded data is integral). -/
inductive Jval where
  | jnull : Jval
  | jbool (b : Bool) : Jval
  | jnum (n : Int) : Jval
  | jstr (s : List Char) : Jval
  | jarr (elems : List Jval) : Jval
  | jobj (fields : List (List Char × Jval)) : Jval

/-- Property access `v[k]`; `none` is JavaScript `undefined`.  Non-objects
have none of the accessed properties. -/
def jget (v : Jval) (k : List Char) : Option Jval :=
  match v with
  | .jobj fields => fields.lookup k
  | _ => none

/-- JavaScript truthiness of a JSON value. -/
def jtruthy : Jval → Bool
  | .jnull => false
  | .jbool b => b
  | .jnum n => n ≠ 0
  | .jstr s => ¬s.isEmpty
  | .jarr _ => true
  | .jobj _ => true

/-- JavaScript truthiness of a possibly-`undefined` value. -/
def otruthy : Option Jval → Bool
  | none => false
  | some v => jtruthy v

/-- Truthiness of a possibly-`undefined` string (`!chatInput`-style tests). -/
def struthy : Option (List Char) → Bool
  | none => false
  | some s => ¬s.isEmpty

mutual

/-- JavaScript `String(v)` coercion (used to model `JSON.parse(v)` on a
non-string argument, which stringifies it first). -/
def jsToString : Jval → List Char
  | .jnull => "null".toList
  | .jbool true => "true".toList
  | .jbool false => "false".toList
  | .jnum n => (toString n).toList
  | .jstr s => s
  | .jarr xs => joinSep [','] (jsArrElts xs)
  | .jobj _ => "[object Object]".toList

/-- Elements of `Array.prototype.toString`, where `null` (and `undefined`)
render as the empty string. -/
def jsArrElts : List Jval → List (List Char)
  | [] => []
  | .jnull :: xs => [] :: jsArrElts xs
  | x :: xs => jsToString x :: jsArrElts xs

end

/-- JSON string escaping as `JSON.stringify` performs it. -/
def jsonEscChar (c : Char) : List Char :=
  if c = '"' then ['\\', '"']
  else if c = '\\' then ['\\', '\\']
  else if c = '\n' then ['\\', 'n']
  else if c = '\r' then ['\\', 'r']
  else if c = '\t' then ['\\', 't']
  else if c.toNat < 0x20 then
    ('\\' :: 'u' :: "00".toList) ++ (Nat.toDigits 16 c.toNat)
  else [c]

mutual

/-- `JSON.stringify(v)` (for defined values; compact form, as JavaScript
produces without an indent argument). -/
def jsonStringify : Jval → List Char
  | .jnull => "null".toList
  | .jbool true => "true".toList
  | .jbool false => "false".toList
  | .jnum n => (toString n).toList
  | .jstr s => '"' :: (s.flatMap jsonEscChar ++ ['"'])
  | .jarr xs => '[' :: (joinSep [','] (jsonStringifyList xs) ++ [']'])
  | .jobj fs => '{' :: (joinSep [','] (jsonStringifyFields fs) ++ ['}'])

/-- `JSON.stringify` on array elements. -/
def jsonStringifyList : List Jval → List (List Char)
  | [] => []
  | x :: xs => jsonStringify x :: jsonStringifyList xs

/-- `JSON.stringify` on object fields. -/
def jsonStringifyFields : List (List Char × Jval) → List (List Char)
  | [] => []
  | (k, v) :: fs =>
      ('"' :: (k.flatMap jsonEscChar ++ ('"' :: ':' :: jsonStringify v))) :: jsonStringifyFields fs

end

/-- The type of the `JSON.parse` oracle: `none` models a thrown
`SyntaxError`. -/
def JsonParse : Type := List Char → Option Jval

/-- `JSON.parse(x)` for a possibly-`undefined` argument `x` of any type:
JavaScript coerces the argument to a string first. -/
def jsonParseAny (parse : JsonParse) (o : Option Jval) : Option Jval :=
  parse (match o with | some v => jsToString v | none => "undefined".toList)

/-! ### The `g`-flag highlight replacements of `formatChatbotResponse` -/

/-- The `**` marker emitted by the `'**$1**'`-style replacements. -/
def starsTok : List Char := ['*', '*']

/-- First alternative of an ordered regex alternation that matches at the
current position. -/
def findAlt (alts : List (List Char)) (l : List Char) : Option (List Char) :=
  alts.find? fun w => w.isPrefixOf l

/-- `.replace(/(sym[\d,]+\.?\d*)/g, '**$1**')` for a currency symbol
`sym` (`₹` or `$`), fuel-driven. -/
def hlMoneyGo (sym : Char) : Nat → List Char → List Char
  | 0, l => l
  | _ + 1, [] => []
  | fuel + 1, c :: cs =>
      if c = sym then
        let digs := cs.takeWhile fun d => d.isDigit || d = ','
        if digs.isEmpty then c :: hlMoneyGo sym fuel cs
        else
          let rest1 := cs.drop digs.length
          let dotPart : List Char × List Char :=
            match rest1 with
            | '.' :: r => (['.'], r)
            | _ => ([], rest1)
          let frac := dotPart.2.takeWhile Char.isDigit
          let rest3 := dotPart.2.drop frac.length
          starsTok ++ (c :: digs) ++ dotPart.1 ++ frac ++ starsTok ++ hlMoneyGo sym fuel rest3
      else c :: hlMoneyGo sym fuel cs

/-- `.replace(/(sym[\d,]+\.?\d*)/g, '**$1**')`. -/
def hlMoney (sym : Char) (s : List Char) : List Char := hlMoneyGo sym (s.length + 1) s

/-- `.replace(/(\d+%)/g, '**$1**')`, fuel-driven. -/
def hlPercentGo : Nat → List Char → List Char
  | 0, l => l
  | _ + 1, [] => []
  | fuel + 1, c :: cs =>
      if c.isDigit then
        let digs := (c :: cs).takeWhile Char.isDigit
        match (c :: cs).drop digs.length with
        | '%' :: r => starsTok ++ digs ++ ('%' :: starsTok) ++ hlPercentGo fuel r
        | _ => c :: hlPercentGo fuel cs
      else c :: hlPercentGo fuel cs

/-- `.replace(/(\d+%)/g, '**$1**')`. -/
def hlPercent (s : List Char) : List Char := hlPercentGo (s.length + 1) s

/-- The alternation `Mr\.|Ms\.|Mrs\.` in its source order. -/
def namePrefixAlts : List (List Char) := ["Mr.".toList, "Ms.".toList, "Mrs.".toList]

/-- `.replace(/(Mr\.|Ms\.|Mrs\.)\s+([A-Z][a-z]+)/g, '**$1 $2**')`,
fuel-driven. -/
def hlNameGo : Nat → List Char → List Char
  | 0, l => l
  | _ + 1, [] => []
  | fuel + 1, c :: cs =>
      match findAlt namePrefixAlts (c :: cs) with
      | some t =>
          let rest := (c :: cs).drop t.length
          let ws := rest.takeWhile isWsJS
          let rest2 := rest.drop ws.length
          (if ws.isEmpty then c :: hlNameGo fuel cs
           else match rest2 with
             | u :: us =>
                 if u.isUpper then
                   let lows := us.takeWhile Char.isLower
                   if lows.isEmpty then c :: hlNameGo fuel cs
                   else starsTok ++ t ++ (' ' :: u :: lows) ++ starsTok ++
                        hlNameGo fuel (us.drop lows.length)
                 else c :: hlNameGo fuel cs
             | [] => c :: hlNameGo fuel cs)
      | none => c :: hlNameGo fuel cs

/-- `.replace(/(Mr\.|Ms\.|Mrs\.)\s+([A-Z][a-z]+)/g, '**$1 $2**')`. -/
def hlName (s : List Char) : List Char := hlNameGo (s.length + 1) s

/-- `.replace(/(w1|w2|...)/g, '**$1**')` for literal word alternatives,
fuel-driven. -/
def hlWordsGo (alts : List (List Char)) : Nat → List Char → List Char
  | 0, l => l
  | _ + 1, [] => []
  | fuel + 1, c :: cs =>
      match findAlt alts (c :: cs) with
      | some t => starsTok ++ t ++ starsTok ++ hlWordsGo alts fuel ((c :: cs).drop t.length)
      | none => c :: hlWordsGo alts fuel cs

/-- `.replace(/(w1|w2|...)/g, '**$1**')`. -/
def hlWords (alts : List (List Char)) (s : List Char) : List Char :=
  hlWordsGo alts (s.length + 1) s

/-- The alternation `month|week|day` in its source order. -/
def durationUnits : List (List Char) := ["month".toList, "week".toList, "day".toList]

/-- `.replace(/(\d+)\s*(month|week|day)/g, '**$1 $2**')`, fuel-driven. -/
def hlDurationGo : Nat → List Char → List Char
  | 0, l => l
  | _ + 1, [] => []
  | fuel + 1, c :: cs =>
      if c.isDigit then
        let digs := (c :: cs).takeWhile Char.isDigit
        let rest := (c :: cs).drop digs.length
        let rest2 := rest.drop (rest.takeWhile isWsJS).length
        match findAlt durationUnits rest2 with
        | some t => starsTok ++ digs ++ (' ' :: t) ++ starsTok ++
                    hlDurationGo fuel (rest2.drop t.length)
        | none => c :: hlDurationGo fuel cs
      else c :: hlDurationGo fuel cs

/-- `.replace(/(\d+)\s*(month|week|day)/g, '**$1 $2**')`. -/
def hlDuration (s : List Char) : List Char := hlDurationGo (s.length + 1) s

/-! ### `formatChatbotResponse` (variant route file, lines 36-162) -/

/-- `/^\d+\./.test(line)`: one or more digits followed by a dot, at the
start. -/
def testNumberedLine (l : List Char) : Bool :=
  let digs := l.takeWhile Char.isDigit
  ¬digs.isEmpty && ['.'].isPrefixOf (l.drop digs.length)

/-- The bullet character `•` used by the formatter. -/
def bulletChar : Char := '•'

/-- The role alternation `CEO|CFO|Chairman|Director` in source order. -/
def roleAlts : List (List Char) :=
  ["CEO".toList, "CFO".toList, "Chairman".toList, "Director".toList]

/-- The phase alternation `Phase|Planning|Development|Testing|Deployment`
in source order. -/
def phaseAlts : List (List Char) :=
  ["Phase".toList, "Planning".toList, "Development".toList,
   "Testing".toList, "Deployment".toList]

/-- The financial branch of `formatChatbotResponse`; `none` when the branch
does not return (its guard or its inner length test fails). -/
def tryFinancial (cleanAnswer : List Char) : Option (List Char) :=
  if containsSub ['₹'] cleanAnswer || containsSub ['$'] cleanAnswer ||
     containsSub ['%'] cleanAnswer then
    let financialLines := (splitPunct cleanAnswer).filter fun s => 5 < (trimJS s).length
    if 1 < financialLines.length then
      some (joinSep ['\n'] (("**📊 Financial Summary**".toList) ::
        (financialLines.map fun line =>
          let trimmed := trimJS line
          if 0 < trimmed.length then
            bulletChar :: ' ' :: hlPercent (hlMoney '$' (hlMoney '₹' trimmed))
          else []).filter fun l => 0 < l.length))
    else none
  else none

/-- The company-leadership branch of `formatChatbotResponse`. -/
def tryCompany (cleanAnswer : List Char) : Option (List Char) :=
  if containsSub ("director".toList) (toLowerStr cleanAnswer) ||
     containsSub ("board".toList) (toLowerStr cleanAnswer) ||
     containsSub ("ceo".toList) (toLowerStr cleanAnswer) then
    let companyLines := (splitPunct cleanAnswer).filter fun s => 5 < (trimJS s).length
    if 1 < companyLines.length then
      some (joinSep ['\n'] (("**👥 Company Leadership**".toList) ::
        (companyLines.map fun line =>
          let trimmed := trimJS line
          if 0 < trimmed.length then
            bulletChar :: ' ' :: hlWords roleAlts (hlName trimmed)
          else []).filter fun l => 0 < l.length))
    else none
  else none

/-- The project-timeline branch of `formatChatbotResponse`. -/
def tryProject (cleanAnswer : List Char) : Option (List Char) :=
  if containsSub ("project".toList) (toLowerStr cleanAnswer) ||
     containsSub ("timeline".toList) (toLowerStr cleanAnswer) ||
     containsSub ("phase".toList) (toLowerStr cleanAnswer) then
    let projectLines := (splitPunct cleanAnswer).filter fun s => 5 < (trimJS s).length
    if 1 < projectLines.length then
      some (joinSep ['\n'] (("**📅 Project Timeline**".toList) ::
        (projectLines.map fun line =>
          let trimmed := trimJS line
          if 0 < trimmed.length then
            bulletChar :: ' ' :: hlWords phaseAlts (hlDuration trimmed)
          else []).filter fun l => 0 < l.length))
    else none
  else none

/-- `formatChatbotResponse` of the variant route file: markdown clean-up
followed by the structured-formatting heuristics, in source order. -/
def formatChatbotResponse (answer : List Char) : List Char :=
  let cleanAnswer := stripPairs ['*'] (stripPairs ['`'] (stripPairs fenceTok answer))
  let lines := (splitNl cleanAnswer).filter fun l => ¬(trimJS l).isEmpty
  if lines.length ≤ 2 then trimJS cleanAnswer
  else
    let hasBulletPoints := lines.any fun l =>
      ['-'].isPrefixOf (trimJS l) || [bulletChar].isPrefixOf (trimJS l)
    let hasNumberedList := lines.any fun l => testNumberedLine (trimJS l)
    let hasKeyValuePairs := lines.any fun l =>
      containsSub [':'] l && containsSub starsTok l
    if hasBulletPoints || hasNumberedList then trimJS cleanAnswer
    else if hasKeyValuePairs then
      joinSep ['\n'] (lines.map fun l =>
        if containsSub [':'] l && containsSub starsTok l then
          bulletChar :: ' ' :: trimJS l
        else trimJS l)
    else
      let sentences := (splitPunct cleanAnswer).filter fun s => 10 < (trimJS s).length
      if 2 < sentences.length then
        joinSep ['\n'] ((sentences.map fun s =>
          let cs := trimJS s
          if 0 < cs.length then bulletChar :: ' ' :: cs else []).filter
            fun p => 0 < p.length)
      else match tryFinancial cleanAnswer with
        | some r => r
        | none => match tryCompany cleanAnswer with
          | some r => r
          | none => match tryProject cleanAnswer with
            | some r => r
            | none => trimJS cleanAnswer

/-! ### The mock response generator (both route files, identical text)

The template-literal outputs are expanded with their interpolated
`sampleDocs` constants.  Literal braces are written `\x7b` / `\x7d` and
apostrophes `\x27`; `\n` inside the JSON string values are real newline
characters, exactly as the template literals produce them. -/

/-- `ChatResponse` of `shared/schema.ts` (`output` is `any` at runtime). -/
structure ChatResponse where
  output : Jval

/-- Mock output for contract questions. -/
def mockContract : List Char :=
  ("```json\n\x7b\n  \"answer\": \"According to the contract terms, if a supplier fails to deliver goods on time, the company has two options: (1) Cancel the order and seek alternative suppliers, or (2) Accept delayed delivery with penalty charges applied to the supplier account.\",\n  \"FileID\": \"1RKUniO9hI4611Q0G7_trPIMV3RSAAiLD\",\n  \"FileName\": \"US_TERMS_COND-0056.pdf\",\n  \"FileLink\": \"https://drive.google.com/file/d/1RKUniO9hI4611Q0G7_trPIMV3RSAAiLD/view\",\n  \"From\": 411,\n  \"To\": 414\n\x7d\n```").toList

/-- Mock output for budget questions. -/
def mockFinancial : List Char :=
  ("```json\n\x7b\n  \"answer\": \"The Q3 financial report shows total revenue of $2.4M with operating expenses of $1.8M, resulting in a net profit margin of 25%. The budget allocation for Q4 includes increased marketing spend and R&D investment.\",\n  \"FileID\": \"3XYZ123abc\",\n  \"FileName\": \"Financial_Report_Q3.xlsx\",\n  \"FileLink\": \"https://drive.google.com/file/d/3XYZ123abc/view\",\n  \"From\": 89,\n  \"To\": 95\n\x7d\n```").toList

/-- Mock output for project questions. -/
def mockProject : List Char :=
  ("```json\n\x7b\n  \"answer\": \"The project proposal outlines a 6-month timeline with three phases: (1) Planning and design (2 months), (2) Development and testing (3 months), and (3) Deployment and training (1 month). Total estimated cost is $150,000.\",\n  \"FileID\": \"2ABCdef789xyz\",\n  \"FileName\": \"Project_Proposal_2024.docx\",\n  \"FileLink\": \"https://drive.google.com/file/d/2ABCdef789xyz/view\",\n  \"From\": 25,\n  \"To\": 32\n\x7d\n```").toList

/-- Mock output for greetings. -/
def mockGreeting : List Char :=
  ("```json\n\x7b\n  \"answer\": \"Hello! I\x27m your AI document assistant. I can help you search through your uploaded documents and answer questions about contracts, financial reports, project proposals, and more. What would you like to know?\",\n  \"FileID\": null,\n  \"FileName\": null,\n  \"FileLink\": null,\n  \"From\": null,\n  \"To\": null\n\x7d\n```").toList

/-- Mock output for help requests. -/
def mockHelp : List Char :=
  ("```json\n\x7b\n  \"answer\": \"I can help you find information from your uploaded documents. Try asking specific questions like: \x27What are the contract terms for late delivery?\x27, \x27What\x27s our Q3 budget status?\x27, \x27What\x27s the project timeline?\x27, or \x27Show me the financial report details.\x27 I\x27ll search through your documents and provide relevant answers with source references.\",\n  \"FileID\": null,\n  \"FileName\": null,\n  \"FileLink\": null,\n  \"From\": null,\n  \"To\": null\n\x7d\n```").toList

/-- Mock output for Tata board questions. -/
def mockTata : List Char :=
  ("```json\n\x7b\n  \"answer\": \"Based on the Tata Industries board documentation, the key directors include Mr. Ratan Tata (Chairman), Mr. Natarajan Chandrasekaran (CEO), and Ms. Aarthi Sivanandh (CFO). The board structure includes 12 members with diverse expertise in technology, finance, and operations.\",\n  \"FileID\": \"TATA_BOARD_2024\",\n  \"FileName\": \"Tata_Industries_Board_Structure.pdf\",\n  \"FileLink\": \"https://drive.google.com/file/d/TATA_BOARD_2024/view\",\n  \"From\": 15,\n  \"To\": 28\n\x7d\n```").toList

/-- Mock output for web-search requests (the answer and `searchInfo`
contain real newlines, produced by `\n` in the template literal). -/
def mockWebSearch : List Char :=
  ("```json\n\x7b\n  \"answer\": \"Here are the results from my web search:\n\n1. **Example.com** - This is a placeholder website used for illustrative examples in documents.\n2. **Sample.org** - Another placeholder domain commonly used in documentation.\n\nWould you like me to search for something specific?\",\n  \"FileID\": \"WebSearch\",\n  \"FileName\": \"Web Search Results\",\n  \"FileLink\": \"https://www.google.com\",\n  \"From\": 0,\n  \"To\": 0,\n  \"searchInfo\": \"https://example.com - Example Domain\nhttps://sample.org - Sample Organization\"\n\x7d\n```").toList

/-- Default mock output. -/
def mockDefault : List Char :=
  ("```json\n\x7b\n  \"answer\": \"Hello! I\x27m your document assistant. I can help you find information from your uploaded documents. Try asking specific questions about contracts, financial reports, project proposals, or any topics mentioned in your documents. For example: \x27What are the contract terms for late delivery?\x27 or \x27What\x27s our Q3 budget status?\x27\",\n  \"FileID\": null,\n  \"FileName\": null,\n  \"FileLink\": null,\n  \"From\": null,\n  \"To\": null\n\x7d\n```").toList

/-- `generateMockChatResponse(userInput)` of both route files: keyword
dispatch over the lower-cased input, in source order. -/
def generateMockChatResponse (userInput : List Char) : ChatResponse :=
  let input := toLowerStr userInput
  if containsSub ("contract".toList) input || containsSub ("terms".toList) input ||
     containsSub ("agreement".toList) input then ⟨.jstr mockContract⟩
  else if containsSub ("budget".toList) input || containsSub ("financial".toList) input ||
     containsSub ("cost".toList) input then ⟨.jstr mockFinancial⟩
  else if containsSub ("project".toList) input || containsSub ("proposal".toList) input ||
     containsSub ("timeline".toList) input then ⟨.jstr mockProject⟩
  else if containsSub ("hello".toList) input || containsSub ("hi".toList) input ||
     containsSub ("hey".toList) input || containsSub ("good morning".toList) input ||
     containsSub ("good afternoon".toList) input ||
     containsSub ("good evening".toList) input then ⟨.jstr mockGreeting⟩
  else if containsSub ("help".toList) input || containsSub ("what can you do".toList) input ||
     containsSub ("how do you work".toList) input then ⟨.jstr mockHelp⟩
  else if containsSub ("tata".toList) input || containsSub ("director".toList) input ||
     containsSub ("board".toList) input then ⟨.jstr mockTata⟩
  else if containsSub ("web search".toList) input || containsSub ("search the web".toList) input ||
     containsSub ("google".toList) input || containsSub ("internet".toList) input then
    ⟨.jstr mockWebSearch⟩
  else ⟨.jstr mockDefault⟩

/-! ### Data model and `MemStorage` (`src/server/storage.ts`)

Dates are integers (epoch milliseconds); `randomUUID()` values and clock
readings are passed in explicitly.  The three `Map`s of `MemStorage`
are total maps with `Option` (respectively `[]`, since
`this.chatHistory.get(sessionId) || []` cannot distinguish an absent key
from an empty list). -/

/-- Message direction. -/
inductive MsgType where
  | human : MsgType
  | ai : MsgType
deriving DecidableEq

/-- The `documentReference` object attached to an AI message; each field is
copied verbatim from the parsed response data, so it holds a raw JSON value
(or `undefined`). -/
structure DocRef where
  fileId : Option Jval
  fileName : Option Jval
  fileLink : Option Jval
  fromLine : Option Jval
  toLine : Option Jval

/-- A chat message as stored and returned by the chat endpoint.  `content`
is `any` at runtime (in one `routes.ts` path it can be a non-string), hence
`Option Jval`. -/
structure Msg where
  type : MsgType
  content : Option Jval
  timestamp : Int
  documentReference : Option DocRef := none
  searchInfo : Option Jval := none

/-- A row of the users table. -/
structure User where
  id : List Char
  username : List Char
  password : List Char
  created_at : Int

/-- A stored user session. -/
structure UserSession where
  id : List Char
  user_id : List Char
  session_id : List Char
  expires_at : Int
  created_at : Int

/-- A stored chat-history row (`ChatSession` of `shared/schema.ts`). -/
structure ChatSession where
  id : List Char
  session_id : List Char
  message : Msg
  created_at : Int

/-- The argument of `saveChatMessage`. -/
structure InsertChatSession where
  session_id : List Char
  message : Msg

/-- The `MemStorage` state. -/
structure Storage where
  users : List Char → Option User
  userSessions : List Char → Option UserSession
  chatHistory : List Char → List ChatSession

/-- Point update of a total map keyed by strings. -/
def updMap {α : Type} (m : List Char → α) (k : List Char) (v : α) : List Char → α :=
  fun x => if x = k then v else m x

/-- The empty store (before the constructor inserts the default user). -/
def emptyStorage : Storage :=
  ⟨fun _ => none, fun _ => none, fun _ => []⟩

/-- `MemStorage.getUser`. -/
def Storage.getUser (st : Storage) (id : List Char) : Option User :=
  st.users id

/-- `MemStorage.createUser` (the `randomUUID` and `new Date()` results are
passed in). -/
def Storage.createUser (st : Storage) (username password id : List Char)
    (now : Int) : Storage × User :=
  let user : User := ⟨id, username, password, now⟩
  ({ st with users := updMap st.users id (some user) }, user)

/-- The `MemStorage` constructor: empty maps plus the default user. -/
def initStorage (defaultUserId : List Char) (now : Int) : Storage :=
  (emptyStorage.createUser ("Suryakanta.Karan".toList) ("Surya@123".toList)
    defaultUserId now).1

/-- `MemStorage.createUserSession` (keyed by `data.session_id`). -/
def Storage.createUserSession (st : Storage) (user_id session_id : List Char)
    (expires_at : Int) (id : List Char) (now : Int) : Storage × UserSession :=
  let session : UserSession := ⟨id, user_id, session_id, expires_at, now⟩
  ({ st with userSessions := updMap st.userSessions session_id (some session) }, session)

/-- `MemStorage.getUserSession`: an entry whose `expires_at` is strictly
before the current time is deleted and reported as absent. -/
def Storage.getUserSession (st : Storage) (sessionId : List Char) (now : Int) :
    Storage × Option UserSession :=
  match st.userSessions sessionId with
  | some session =>
      if session.expires_at < now then
        ({ st with userSessions := updMap st.userSessions sessionId none }, none)
      else (st, some session)
  | none => (st, none)

/-- `MemStorage.deleteUserSession`. -/
def Storage.deleteUserSession (st : Storage) (sessionId : List Char) : Storage :=
  { st with userSessions := updMap st.userSessions sessionId none }

/-- `MemStorage.getChatHistory`. -/
def Storage.getChatHistory (st : Storage) (sessionId : List Char) : List ChatSession :=
  st.chatHistory sessionId

/-- `MemStorage.saveChatMessage`: appends one row to the history of
`chat.session_id`. -/
def Storage.saveChatMessage (st : Storage) (chat : InsertChatSession)
    (id : List Char) (now : Int) : Storage × ChatSession :=
  let chatSession : ChatSession := ⟨id, chat.session_id, chat.message, now⟩
  let existing := st.chatHistory chat.session_id
  let newHist := updMap st.chatHistory chat.session_id (existing ++ [chatSession])
  ({ st with chatHistory := newHist }, chatSession)

/-- `MemStorage.deleteChatSession`. -/
def Storage.deleteChatSession (st : Storage) (sessionId : List Char) : Storage :=
  { st with chatHistory := updMap st.chatHistory sessionId [] }

/-! ### The `requireAuth` middleware (`routes.ts` lines 9-26) -/

/-- Outcome of the middleware: a 401 response, or control passed on with
the looked-up user attached. -/
inductive AuthOutcome where
  | unauthorized (message : List Char) : AuthOutcome
  | authorized (user : Option User) (sessionId : List Char) : AuthOutcome

/-- `requireAuth`: missing (or empty, hence falsy) `x-session-id` and
unknown/expired sessions yield 401. -/
def requireAuth (st : Storage) (headerSessionId : Option (List Char)) (now : Int) :
    Storage × AuthOutcome :=
  if !struthy headerSessionId then (st, .unauthorized ("Session required".toList))
  else
    let sid := headerSessionId.getD []
    match st.getUserSession sid now with
    | (st1, none) => (st1, .unauthorized ("Invalid or expired session".toList))
    | (st1, some session) => (st1, .authorized (st1.getUser session.user_id) sid)

/-! ### The `/api/chat` pipeline of the variant route file (`part_011`) -/

/-- `API_CONFIG` (lines 9-13). -/
structure ApiConfig where
  TIMEOUT_MS : Nat
  MAX_RETRIES : Nat
  RETRY_DELAY_BASE_MS : Nat

/-- The configured values: 90 s timeout, 2 attempts, 1 s backoff base. -/
def API_CONFIG : ApiConfig := ⟨90000, 2, 1000⟩

/-- Result of one `fetch` of the webhook: a network/timeout error, or an
HTTP response with its `ok` flag and body text. -/
inductive FetchResult where
  | netErr : FetchResult
  | httpResp (ok : Bool) (body : List Char) : FetchResult

/-- The parsed body of attempt `k`, `none` when the attempt throws: a
network error, a non-`ok` status, and an unparsable body all raise inside
the per-attempt `try` and are caught as a failed attempt. -/
def attemptParsed (parse : JsonParse) (fetchAttempt : Nat → FetchResult) (k : Nat) :
    Option Jval :=
  match fetchAttempt k with
  | .httpResp true body => parse body
  | _ => none

/-- Cases 1-5 of the response-shape handling (lines 533-577): the value
assigned to `chatResponse.output`, or `none` when no case assigns one (a
truthy `output` that is neither a string nor of `typeof object`). -/
def normalizeParsedOutput (parse : JsonParse) (parsedResponse : Jval) : Option Jval :=
  match jget parsedResponse ("output".toList) with
  | some out =>
      if jtruthy out then
        match out with
        | .jstr s =>
            let jsonString := (extractFencedP11 s).getD s
            (match parse (cleanP11 jsonString) with
             | some outputData => some outputData
             | none => some (.jstr s))
        | .jobj fs => some (.jobj fs)
        | .jarr xs => some (.jarr xs)
        | _ => none
      else some parsedResponse
  | none => some parsedResponse

/-- Result of the retry loop: the assigned `chatResponse.output` (if any),
the backoff waits performed between consecutive attempts, and the number
of attempts made. -/
structure LoopResult where
  chatResponse : Option Jval
  waits : List Nat
  attemptsMade : Nat

/-- The retry loop (lines 507-608), recursing over the remaining allowed
attempts; `attempt` is the 1-based attempt counter.  A successful attempt
normalizes and breaks; a failed attempt waits `2^attempt * base`
milliseconds when further attempts remain. -/
def retryLoopGo (parse : JsonParse) (fetchAttempt : Nat → FetchResult)
    (maxRetries baseMs : Nat) : Nat → Nat → LoopResult
  | _, 0 => ⟨none, [], 0⟩
  | attempt, fuel + 1 =>
      match attemptParsed parse fetchAttempt attempt with
      | some parsedResponse =>
          ⟨normalizeParsedOutput parse parsedResponse, [], 1⟩
      | none =>
          let rest := retryLoopGo parse fetchAttempt maxRetries baseMs (attempt + 1) fuel
          let wait := if attempt < maxRetries then [2 ^ attempt * baseMs] else []
          ⟨rest.chatResponse, wait ++ rest.waits, rest.attemptsMade + 1⟩

/-- The retry loop entered at attempt 1. -/
def retryLoop (parse : JsonParse) (fetchAttempt : Nat → FetchResult)
    (cfg : ApiConfig) : LoopResult :=
  retryLoopGo parse fetchAttempt cfg.MAX_RETRIES cfg.RETRY_DELAY_BASE_MS 1 cfg.MAX_RETRIES

/-- The mock fallback of the outer `catch` (lines 609-625): the mock
output string, parsed as direct JSON when possible (it never is for the
fenced mock strings, but the code tries). -/
def mockFallback (parse : JsonParse) (chatInput : List Char) : Jval :=
  match (generateMockChatResponse chatInput).output with
  | .jstr s =>
      (match parse s with
       | some mockParsed => mockParsed
       | none => .jstr s)
  | v => v

/-- `chatResponse.output` after the whole webhook phase: the loop result
when it assigned one, otherwise the mock fallback (a `null` loop result
re-raises and lands in the same `catch`). -/
def webhookOutput (parse : JsonParse) (fetchAttempt : Nat → FetchResult)
    (cfg : ApiConfig) (chatInput : List Char) : Jval :=
  match (retryLoop parse fetchAttempt cfg).chatResponse with
  | some out => out
  | none => mockFallback parse chatInput

/-- The `FileID` guard of the main path:
`parsedData.FileID && parsedData.FileID !== "Not Applicable"` (strict
inequality against a string only distinguishes string values). -/
def fileIdOk (fid : Option Jval) : Bool :=
  otruthy fid &&
    (match fid with
     | some (.jstr s) => ¬(s = ("Not Applicable".toList))
     | _ => true)

/-- The document reference copied from parsed data `pd`. -/
def docRefOf (pd : Jval) : DocRef :=
  ⟨jget pd ("FileID".toList), jget pd ("FileName".toList),
   jget pd ("FileLink".toList), jget pd ("From".toList), jget pd ("To".toList)⟩

/-- `searchInfo` post-processing: a truthy non-string is
`JSON.stringify`-ed. -/
def searchInfoPost : Option Jval → Option Jval
  | none => none
  | some v =>
      if jtruthy v then
        match v with
        | .jstr s => some (.jstr s)
        | _ => some (.jstr (jsonStringify v))
      else some v

/-- Content used when no clear answer is found. -/
def noAnswerMsg : List Char :=
  ("I received a response, but it did not contain a clear answer. Please try rephrasing your question.").toList

/-- Content used when interpreting the response raises. -/
def errInterpretMsg : List Char :=
  ("An unexpected error occurred while interpreting the chatbot\x27s response format.").toList

/-- Whether a JSON value has JavaScript `typeof === 'object'` (apart from
`null`, which the truthiness guard already excludes). -/
def isObjType : Jval → Bool
  | .jobj _ => true
  | .jarr _ => true
  | _ => false

/-- The final `aiMessage` construction of the variant route file
(lines 639-727): the main object-with-answer path, the string fallback
path (fence extraction, clean-up, parse, `FileID`-truthy document
reference), and the error paths.  A truthy non-string `answer` makes
`formatChatbotResponse` raise, which the surrounding `catch` turns into
the fixed error content. -/
def buildAiMessageP11 (parse : JsonParse) (output : Jval) (now : Int) : Msg :=
  if jtruthy output && isObjType output && otruthy (jget output ("answer".toList)) then
    match jget output ("answer".toList) with
    | some (.jstr a) =>
        { type := .ai, content := some (.jstr (formatChatbotResponse a)), timestamp := now,
          documentReference :=
            (if fileIdOk (jget output ("FileID".toList)) then some (docRefOf output) else none),
          searchInfo := searchInfoPost (jget output ("searchInfo".toList)) }
    | _ => { type := .ai, content := some (.jstr errInterpretMsg), timestamp := now }
  else
    match output with
    | .jstr s =>
        if ¬s.isEmpty then
          let jsonString := (extractFencedP11 s).getD s
          match parse (cleanP11 jsonString) with
          | some fallbackParsed =>
              if otruthy (jget fallbackParsed ("answer".toList)) then
                match jget fallbackParsed ("answer".toList) with
                | some (.jstr a) =>
                    { type := .ai, content := some (.jstr (formatChatbotResponse a)),
                      timestamp := now,
                      documentReference :=
                        (if otruthy (jget fallbackParsed ("FileID".toList)) then
                          some (docRefOf fallbackParsed) else none) }
                | _ => { type := .ai, content := some (.jstr errInterpretMsg), timestamp := now }
              else { type := .ai, content := some (.jstr noAnswerMsg), timestamp := now }
          | none => { type := .ai, content := some (.jstr s), timestamp := now }
        else { type := .ai, content := some (.jstr noAnswerMsg), timestamp := now }
    | _ => { type := .ai, content := some (.jstr noAnswerMsg), timestamp := now }

/-- Result of one `/api/chat` request: the final store, the HTTP status and
the message sent back. -/
structure ChatApiResult where
  store : Storage
  status : Nat
  message : Option Msg

/-- The `/api/chat` handler of the variant route file: parameter
validation, save of the human message, webhook phase with retries and
mock fallback, `aiMessage` construction, save of the AI message,
response. -/
def chatHandlerP11 (parse : JsonParse) (fetchAttempt : Nat → FetchResult) (st : Storage)
    (chatInput sessionId : Option (List Char)) (humanId aiId : List Char) (now : Int) :
    ChatApiResult :=
  if !struthy chatInput || !struthy sessionId then ⟨st, 400, none⟩
  else
    let ci := chatInput.getD []
    let sid := sessionId.getD []
    let humanMsg : Msg := ⟨.human, some (.jstr ci), now, none, none⟩
    let st1 := (st.saveChatMessage ⟨sid, humanMsg⟩ humanId now).1
    let output := webhookOutput parse fetchAttempt API_CONFIG ci
    let aiMessage := buildAiMessageP11 parse output now
    let st2 := (st1.saveChatMessage ⟨sid, aiMessage⟩ aiId now).1
    ⟨st2, 200, some aiMessage⟩

/-! ### The `/api/chat` pipeline of `routes.ts` -/

/-- The single-fetch webhook phase of `routes.ts` (lines 362-405):
`chatResponse` is the parsed response body, or the mock response object on
any failure (network error, non-`ok` status, unparsable body). -/
def routesChatResponse (parse : JsonParse) (webhook : FetchResult) (chatInput : List Char) :
    Jval :=
  let mock : Jval := .jobj [(("output".toList), (generateMockChatResponse chatInput).output)]
  match webhook with
  | .httpResp true body =>
      (match parse body with
       | some parsed => parsed
       | none => mock)
  | _ => mock

/-- The structured-output parsing of `routes.ts` (lines 414-460):
`parsedData` after the direct `JSON.parse` (on the stringified output) and
the markdown-fence fallback; `none` covers both parse failure and the
`TypeError` on `.match` of a non-string, which aborts the block. -/
def parsedDataRT (parse : JsonParse) (output : Option Jval) : Option Jval :=
  match jsonParseAny parse output with
  | some v => some v
  | none =>
      match output with
      | some (.jstr s) =>
          (match extractFencedRT s with
           | some cap => parse (cleanRT cap)
           | none => none)
      | _ => none

/-- The `aiMessage` construction of `routes.ts` (lines 407-495): initially
the raw output as content; replaced by the cleaned answer, document
reference and search info when parsed data with a truthy `answer` is
found.  A truthy non-string `answer` makes `.replace` raise, so the
initial message survives. -/
def buildAiMessageRT (parse : JsonParse) (chatResponse : Jval) (now : Int) : Msg :=
  let output := jget chatResponse ("output".toList)
  let initial : Msg := ⟨.ai, output, now, none, none⟩
  match parsedDataRT parse output with
  | some parsedData =>
      if jtruthy parsedData && otruthy (jget parsedData ("answer".toList)) then
        match jget parsedData ("answer".toList) with
        | some (.jstr a) =>
            { type := .ai, content := some (.jstr (cleanAnswerRT a)), timestamp := now,
              documentReference :=
                (if fileIdOk (jget parsedData ("FileID".toList)) then
                  some (docRefOf parsedData) else none),
              searchInfo := searchInfoPost (jget parsedData ("searchInfo".toList)) }
        | _ => initial
      else initial
  | none => initial

/-- The `/api/chat` handler of `routes.ts`. -/
def chatHandlerRT (parse : JsonParse) (webhook : FetchResult) (st : Storage)
    (chatInput sessionId : Option (List Char)) (humanId aiId : List Char) (now : Int) :
    ChatApiResult :=
  if !struthy chatInput || !struthy sessionId then ⟨st, 400, none⟩
  else
    let ci := chatInput.getD []
    let sid := sessionId.getD []
    let humanMsg : Msg := ⟨.human, some (.jstr ci), now, none, none⟩
    let st1 := (st.saveChatMessage ⟨sid, humanMsg⟩ humanId now).1
    let chatResponse := routesChatResponse parse webhook ci
    let aiMessage := buildAiMessageRT parse chatResponse now
    let st2 := (st1.saveChatMessage ⟨sid, aiMessage⟩ aiId now).1
    ⟨st2, 200, some aiMessage⟩

/-- `GET /api/chat/:sessionId` (both route files): returns the stored
history. -/
def getChatHistoryRoute (st : Storage) (sessionId : List Char) : List ChatSession :=
  st.getChatHistory sessionId

/-! ### The PDF proxy `GET /api/proxy/pdf/:fileId` (`routes.ts` 227-287) -/

/-- Result of one `fetch` of a candidate URL: a thrown error, or a
response with its `ok` flag and body bytes. -/
inductive PdfFetch where
  | fetchErr : PdfFetch
  | resp (ok : Bool) (body : List Nat) : PdfFetch

/-- The three candidate Google Drive URLs, in source order. -/
def pdfProxyUrls (fileId : List Char) : List (List Char) :=
  [("https://drive.google.com/uc?export=download&id=".toList) ++ fileId,
   ("https://drive.usercontent.google.com/download?id=".toList) ++ fileId ++
     ("&export=download".toList),
   ("https://docs.google.com/document/d/".toList) ++ fileId ++
     ("/export?format=pdf".toList)]

/-- The `%PDF` header check on the first four bytes
(`0x25 0x50 0x44 0x46`; a shorter body fails the check, as the
out-of-range `Uint8Array` reads are `undefined`). -/
def isPdfHeader : List Nat → Bool
  | a :: b :: c :: d :: _ => a = 0x25 && b = 0x50 && c = 0x44 && d = 0x46
  | _ => false

/-- The headers set on a successful PDF response. -/
structure PdfHeaders where
  contentType : List Char
  allowOrigin : List Char
  allowMethods : List Char
  allowHeaders : List Char
  contentLength : List Char
  cacheControl : List Char

/-- Outcome of the proxy route. -/
inductive PdfProxyResult where
  | sentPdf (headers : PdfHeaders) (body : List Nat) : PdfProxyResult
  | notFound (error : List Char) : PdfProxyResult

/-- The headers for a body of the given length. -/
def pdfHeadersFor (body : List Nat) : PdfHeaders :=
  ⟨("application/pdf".toList), ("*".toList), ("GET".toList),
   ("Content-Type".toList), ((toString body.length).toList),
   ("public, max-age=86400".toList)⟩

/-- The 404 error message of the proxy. -/
def pdfNotFoundMsg : List Char :=
  ("PDF not found or not publicly accessible. The document may require Google account access or may not be a PDF file.").toList

/-- The URL loop: a fetch error, a non-`ok` response and a non-PDF body
all continue with the next candidate. -/
def proxyPdfGo (fetchUrl : List Char → PdfFetch) : List (List Char) → PdfProxyResult
  | [] => .notFound pdfNotFoundMsg
  | url :: rest =>
      match fetchUrl url with
      | .resp true body =>
          if isPdfHeader body then .sentPdf (pdfHeadersFor body) body
          else proxyPdfGo fetchUrl rest
      | _ => proxyPdfGo fetchUrl rest

/-- The proxy handler for a given file id. -/
def proxyPdf (fetchUrl : List Char → PdfFetch) (fileId : List Char) : PdfProxyResult :=
  proxyPdfGo fetchUrl (pdfProxyUrls fileId)

/-! ### The PDF page-highlight decision
(`document-preview.tsx`, `renderPage` lines 142-146 and
`addHighlightOverlay` lines 153-223) -/

/-- JavaScript truthiness of a possibly-absent number (`data.from`,
`data.to`). -/
def truthyNum : Option Int → Bool
  | none => false
  | some n => n ≠ 0

/-- What the component draws on the canvas of the current page:
the positioned rectangle of the intersecting-range branch, the
other-page indicator banner, the unconditional "simple prominent
highlight" rectangle of the `catch` branch (lines 207-222), or
nothing. -/
inductive HighlightResult where
  | rectHighlight (startLine endLine : Int) : HighlightResult
  | pageIndicator (page : Int) : HighlightResult
  | fallbackRect : HighlightResult
  | skipped : HighlightResult

/-- Whether the component put a highlight rectangle on the canvas — the
positioned one or the `catch` fallback one. -/
def drawsRectangle : HighlightResult → Bool
  | .rectHighlight _ _ => true
  | .fallbackRect => true
  | _ => false

/-- `linesPerPage = Math.floor(viewport.height / lineHeight)` with
`lineHeight = 16`. -/
def linesPerPageOf (viewportHeight : ℚ) : Int :=
  ⌊viewportHeight / 16⌋

/-- `addHighlightOverlay`: the early return on a falsy endpoint comes
before the `try`; `textContentOk` says whether `page.getTextContent()`
and the canvas calls of the `try` block complete.  When they do, the
page-interval intersection test draws the positioned rectangle or the
other-page indicator with `Math.ceil(startLine / linesPerPage)`; when
the `try` block throws, the `catch` (lines 207-222) draws the fallback
rectangle unconditionally. -/
def addHighlightOverlay (textContentOk : Bool) (fromLine toLine : Option Int)
    (currentPage : Int) (viewportHeight : ℚ) : HighlightResult :=
  if ¬(truthyNum fromLine && truthyNum toLine) then .skipped
  else if textContentOk then
    let startLine := fromLine.getD 0
    let endLine := toLine.getD 0
    let linesPerPage := linesPerPageOf viewportHeight
    let pageStartLine := (currentPage - 1) * linesPerPage + 1
    let pageEndLine := currentPage * linesPerPage
    if startLine ≤ pageEndLine ∧ pageStartLine ≤ endLine then
      .rectHighlight startLine endLine
    else
      .pageIndicator ⌈(startLine : ℚ) / (linesPerPage : ℚ)⌉
  else .fallbackRect

/-- The `renderPage` guard: the overlay only runs when
`data.from && data.to`. -/
def renderPageHighlight (textContentOk : Bool) (fromLine toLine : Option Int)
    (currentPage : Int) (viewportHeight : ℚ) : HighlightResult :=
  if truthyNum fromLine && truthyNum toLine then
    addHighlightOverlay textContentOk fromLine toLine currentPage viewportHeight
  else .skipped

/-! ### Specification-side helpers for the history claims -/

/-- A sequence of `saveChatMessage` calls, each with its generated row id
and clock reading. -/
def applySaves (st : Storage) :
    List (InsertChatSession × List Char × Int) → Storage
  | [] => st
  | (chat, id, now) :: rest => applySaves (st.saveChatMessage chat id now).1 rest

/-- The rows the specification expects `getChatHistory s` to return after a
sequence of saves: exactly the saves with `session_id = s`, in order. -/
def expectedRows (s : List Char) (saves : List (InsertChatSession × List Char × Int)) :
    List ChatSession :=
  (saves.filter fun x => decide (x.1.session_id = s)).map
    fun x => ⟨x.2.1, x.1.session_id, x.1.message, x.2.2⟩

theorem applySaves_chatHistory (saves : List (InsertChatSession × List Char × Int)) :
    ∀ (st : Storage) (s : List Char),
      (applySaves st saves).chatHistory s = st.chatHistory s ++ expectedRows s saves := by
  induction saves with
  | nil => intro st s; simp [applySaves, expectedRows]
  | cons x rest ih =>
      intro st s
      obtain ⟨chat, id, now⟩ := x
      simp only [applySaves, ih]
      by_cases h : chat.session_id = s
      · subst h
        simp [Storage.saveChatMessage, updMap, expectedRows]
      · simp [Storage.saveChatMessage, updMap, expectedRows, h, Ne.symm h]

/-- C7: a session id groups its own messages: after any sequence of saves
on the fresh store, `getChatHistory s` returns exactly the messages saved
with `session_id = s`, in save order, and never one saved under another
id; an id with no saved messages yields the empty list. -/
theorem chat_history_returns_saved_messages
    (saves : List (InsertChatSession × List Char × Int))
    (uid : List Char) (now0 : Int) (s : List Char) :
    (applySaves (initStorage uid now0) saves).getChatHistory s = expectedRows s saves ∧
    ((∀ x ∈ saves, x.1.session_id ≠ s) →
      (applySaves (initStorage uid now0) saves).getChatHistory s = []) := by
  have hbase : (initStorage uid now0).chatHistory s = [] := by
    simp [initStorage, emptyStorage, Storage.createUser]
  constructor
  · simp [Storage.getChatHistory, applySaves_chatHistory, hbase]
  · intro hnone
    have h1 : (saves.filter fun x => decide (x.1.session_id = s)) = [] := by
      rw [List.filter_eq_nil_iff]
      intro x hx
      simp [hnone x hx]
    simp [Storage.getChatHistory, applySaves_chatHistory, hbase, expectedRows, h1]

/-- Demo saves for the C7 witness: two rows under session `a`, one under
session `b`. -/
def demoSaves : List (InsertChatSession × List Char × Int) :=
  [(⟨['a'], ⟨.human, some (.jstr ("q1".toList)), 1, none, none⟩⟩, ("id1".toList), 1),
   (⟨['b'], ⟨.human, some (.jstr ("q2".toList)), 2, none, none⟩⟩, ("id2".toList), 2),
   (⟨['a'], ⟨.ai, some (.jstr ("a1".toList)), 3, none, none⟩⟩, ("id3".toList), 3)]

theorem chat_history_returns_saved_messages_witness :
    (applySaves (initStorage ("u".toList) 0) demoSaves).getChatHistory ['a'] =
      [⟨("id1".toList), ['a'], ⟨.human, some (.jstr ("q1".toList)), 1, none, none⟩, 1⟩,
       ⟨("id3".toList), ['a'], ⟨.ai, some (.jstr ("a1".toList)), 3, none, none⟩, 3⟩] ∧
    (applySaves (initStorage ("u".toList) 0) demoSaves).getChatHistory ['c'] = [] := by
  constructor
  · exact (chat_history_returns_saved_messages demoSaves ("u".toList) 0 ['a']).1
  · exact (chat_history_returns_saved_messages demoSaves ("u".toList) 0 ['c']).2
      (by intro x hx; fin_cases hx <;> decide)

/-- C10: `saveChatMessage` appends exactly one row to the history of
`chat.session_id` and leaves every other session id unchanged;
`deleteChatSession s` empties only the history of `s` and leaves the other
histories and the user and user-session maps unchanged. -/
theorem chat_storage_frame_effects (st : Storage) (chat : InsertChatSession)
    (id : List Char) (now : Int) (sdel s2 : List Char) :
    ((st.saveChatMessage chat id now).1.chatHistory chat.session_id =
        st.chatHistory chat.session_id ++ [⟨id, chat.session_id, chat.message, now⟩]) ∧
    (s2 ≠ chat.session_id →
        (st.saveChatMessage chat id now).1.chatHistory s2 = st.chatHistory s2) ∧
    ((st.saveChatMessage chat id now).1.users = st.users) ∧
    ((st.saveChatMessage chat id now).1.userSessions = st.userSessions) ∧
    ((st.deleteChatSession sdel).chatHistory sdel = []) ∧
    (s2 ≠ sdel → (st.deleteChatSession sdel).chatHistory s2 = st.chatHistory s2) ∧
    ((st.deleteChatSession sdel).users = st.users) ∧
    ((st.deleteChatSession sdel).userSessions = st.userSessions) := by
  refine ⟨?_, ?_, rfl, rfl, ?_, ?_, rfl, rfl⟩
  · simp [Storage.saveChatMessage, updMap]
  · intro h; simp [Storage.saveChatMessage, updMap, h]
  · simp [Storage.deleteChatSession, updMap]
  · intro h; simp [Storage.deleteChatSession, updMap, h]

theorem chat_storage_frame_effects_witness :
    ((initStorage ("u".toList) 0).saveChatMessage
        ⟨['a'], ⟨.human, some (.jstr ['q']), 1, none, none⟩⟩ ("id1".toList) 1).1.chatHistory ['b'] =
      (initStorage ("u".toList) 0).chatHistory ['b'] ∧
    ((initStorage ("u".toList) 0).deleteChatSession ['a']).chatHistory ['b'] =
      (initStorage ("u".toList) 0).chatHistory ['b'] := by
  have h := chat_storage_frame_effects (initStorage ("u".toList) 0)
    ⟨['a'], ⟨.human, some (.jstr ['q']), 1, none, none⟩⟩ ("id1".toList) 1 ['a'] ['b']
  exact ⟨h.2.1 (by decide), h.2.2.2.2.2.1 (by decide)⟩

/-- C8: a stored user session whose `expires_at` is strictly before the
current time is never authenticated: `getUserSession` removes it and
returns `undefined`, and `requireAuth` answers 401 ("Invalid or expired
session") for a request bearing that `x-session-id`. -/
theorem expired_session_rejected (st : Storage) (sid : List Char) (sess : UserSession)
    (now : Int) (hstore : st.userSessions sid = some sess)
    (hexp : sess.expires_at < now) (hne : sid ≠ []) :
    (st.getUserSession sid now).2 = none ∧
    (st.getUserSession sid now).1.userSessions sid = none ∧
    (requireAuth st (some sid) now).2 =
      .unauthorized ("Invalid or expired session".toList) := by
  have h1 : st.getUserSession sid now =
      ({ st with userSessions := updMap st.userSessions sid none }, none) := by
    simp [Storage.getUserSession, hstore, hexp]
  have hs : struthy (some sid) = true := by
    simp [struthy, hne]
  refine ⟨by rw [h1], by rw [h1]; simp [updMap], ?_⟩
  simp [requireAuth, hs, h1]

/-- A store holding one user session that expires at time 5. -/
def expiredDemoStore : Storage :=
  ((initStorage ("u".toList) 0).createUserSession ("u".toList) ("sess1".toList) 5
    ("sid-row".toList) 0).1

theorem expired_session_rejected_witness :
    (expiredDemoStore.getUserSession ("sess1".toList) 10).2 = none ∧
    (requireAuth expiredDemoStore (some ("sess1".toList)) 10).2 =
      .unauthorized ("Invalid or expired session".toList) := by
  have h := expired_session_rejected expiredDemoStore ("sess1".toList)
    ⟨("sid-row".toList), ("u".toList), ("sess1".toList), 5, 0⟩ 10 rfl (by decide) (by decide)
  exact ⟨h.1, h.2.2⟩

/-- C3: a `POST /api/chat` whose body carries both `chatInput` and
`sessionId` responds 200 with the constructed AI message, after appending
first the human message and then the AI message to the history of
`sessionId`, so that a subsequent `GET /api/chat/:sessionId` returns
both. -/
theorem chat_post_persists_history (parse : JsonParse) (webhook : FetchResult)
    (st : Storage) (ci sid humanId aiId : List Char) (now : Int)
    (h1 : ci ≠ []) (h2 : sid ≠ []) :
    (chatHandlerRT parse webhook st (some ci) (some sid) humanId aiId now).status = 200 ∧
    (chatHandlerRT parse webhook st (some ci) (some sid) humanId aiId now).message =
      some (buildAiMessageRT parse (routesChatResponse parse webhook ci) now) ∧
    getChatHistoryRoute
        (chatHandlerRT parse webhook st (some ci) (some sid) humanId aiId now).store sid =
      st.getChatHistory sid ++
        [⟨humanId, sid, ⟨.human, some (.jstr ci), now, none, none⟩, now⟩,
         ⟨aiId, sid, buildAiMessageRT parse (routesChatResponse parse webhook ci) now, now⟩] := by
  have hs1 : struthy (some ci) = true := by simp [struthy, h1]
  have hs2 : struthy (some sid) = true := by simp [struthy, h2]
  refine ⟨?_, ?_, ?_⟩ <;>
    simp [chatHandlerRT, hs1, hs2, Storage.saveChatMessage, updMap,
      getChatHistoryRoute, Storage.getChatHistory]

/-- A `JSON.parse` oracle that rejects everything. -/
def toyParseNone : JsonParse := fun _ => none

theorem chat_post_persists_history_witness :
    (chatHandlerRT toyParseNone .netErr (initStorage ("u".toList) 0)
        (some ("hi".toList)) (some ['s']) ("h1".toList) ("a1".toList) 7).status = 200 ∧
    getChatHistoryRoute
        (chatHandlerRT toyParseNone .netErr (initStorage ("u".toList) 0)
          (some ("hi".toList)) (some ['s']) ("h1".toList) ("a1".toList) 7).store ['s'] =
      [⟨("h1".toList), ['s'], ⟨.human, some (.jstr ("hi".toList)), 7, none, none⟩, 7⟩,
       ⟨("a1".toList), ['s'],
        buildAiMessageRT toyParseNone (routesChatResponse toyParseNone .netErr ("hi".toList)) 7, 7⟩] := by
  have h := chat_post_persists_history toyParseNone .netErr (initStorage ("u".toList) 0)
    ("hi".toList) ['s'] ("h1".toList) ("a1".toList) 7 (by decide) (by decide)
  refine ⟨h.1, ?_⟩
  have hist := h.2.2
  simpa [initStorage, emptyStorage, Storage.createUser, Storage.getChatHistory] using hist

/-- C9: `POST /api/chat` validates atomically, in both route files: a
missing (or empty, hence falsy) `chatInput` or `sessionId` yields a 400
response with the store untouched; when both are present the human message
is appended to the history even when the webhook call fails (the webhook
outcome is universally quantified here, covering every failure). -/
theorem chat_post_validation_atomic (parse : JsonParse) (webhook : FetchResult)
    (fetchAttempt : Nat → FetchResult) (st : Storage)
    (chatInput sessionId : Option (List Char)) (humanId aiId : List Char) (now : Int) :
    ((struthy chatInput = false ∨ struthy sessionId = false) →
      chatHandlerRT parse webhook st chatInput sessionId humanId aiId now = ⟨st, 400, none⟩ ∧
      chatHandlerP11 parse fetchAttempt st chatInput sessionId humanId aiId now = ⟨st, 400, none⟩) ∧
    (struthy chatInput = true → struthy sessionId = true →
      (chatHandlerRT parse webhook st chatInput sessionId humanId aiId now).store.chatHistory
          (sessionId.getD []) =
        st.chatHistory (sessionId.getD []) ++
          [⟨humanId, sessionId.getD [],
            ⟨.human, some (.jstr (chatInput.getD [])), now, none, none⟩, now⟩,
           ⟨aiId, sessionId.getD [],
            buildAiMessageRT parse (routesChatResponse parse webhook (chatInput.getD [])) now,
            now⟩] ∧
      (chatHandlerP11 parse fetchAttempt st chatInput sessionId humanId aiId now).store.chatHistory
          (sessionId.getD []) =
        st.chatHistory (sessionId.getD []) ++
          [⟨humanId, sessionId.getD [],
            ⟨.human, some (.jstr (chatInput.getD [])), now, none, none⟩, now⟩,
           ⟨aiId, sessionId.getD [],
            buildAiMessageP11 parse
              (webhookOutput parse fetchAttempt API_CONFIG (chatInput.getD [])) now, now⟩]) := by
  constructor
  · intro hmiss
    rcases hmiss with hci | hsid
    · constructor <;> simp [chatHandlerRT, chatHandlerP11, hci]
    · constructor <;> simp [chatHandlerRT, chatHandlerP11, hsid]
  · intro hci hsid
    constructor <;>
      simp [chatHandlerRT, chatHandlerP11, hci, hsid, Storage.saveChatMessage, updMap]

theorem chat_post_validation_atomic_witness :
    chatHandlerRT toyParseNone .netErr (initStorage ("u".toList) 0)
        (some ("hi".toList)) none ("h1".toList) ("a1".toList) 7 =
      ⟨initStorage ("u".toList) 0, 400, none⟩ ∧
    (chatHandlerP11 toyParseNone (fun _ => .netErr) (initStorage ("u".toList) 0)
        (some ("hi".toList)) (some ['s']) ("h1".toList) ("a1".toList) 7).store.chatHistory ['s'] =
      (initStorage ("u".toList) 0).chatHistory ['s'] ++
        [⟨("h1".toList), ['s'], ⟨.human, some (.jstr ("hi".toList)), 7, none, none⟩, 7⟩,
         ⟨("a1".toList), ['s'],
          buildAiMessageP11 toyParseNone
            (webhookOutput toyParseNone (fun _ => .netErr) API_CONFIG ("hi".toList)) 7, 7⟩] := by
  constructor
  · exact ((chat_post_validation_atomic toyParseNone .netErr (fun _ => .netErr)
      (initStorage ("u".toList) 0) (some ("hi".toList)) none ("h1".toList) ("a1".toList) 7).1
        (Or.inr (by decide))).1
  · exact ((chat_post_validation_atomic toyParseNone .netErr (fun _ => .netErr)
      (initStorage ("u".toList) 0) (some ("hi".toList)) (some ['s']) ("h1".toList) ("a1".toList) 7).2
        (by decide) (by decide)).2

/-- Whether one fetch outcome is an `ok` response whose body starts with
`%PDF` — the condition under which the proxy loop stops at a URL. -/
def goodPdf : PdfFetch → Bool
  | .resp true body => isPdfHeader body
  | _ => false

theorem proxyPdfGo_notFound (fetchUrl : List Char → PdfFetch) :
    ∀ urls : List (List Char), (∀ u ∈ urls, goodPdf (fetchUrl u) = false) →
      proxyPdfGo fetchUrl urls = .notFound pdfNotFoundMsg := by
  intro urls
  induction urls with
  | nil => intro _; rfl
  | cons u rest ih =>
      intro h
      have hu := h u (by simp)
      have hrest := ih fun v hv => h v (by simp [hv])
      cases hfetch : fetchUrl u with
      | fetchErr => simp [proxyPdfGo, hfetch, hrest]
      | resp ok body =>
          cases ok with
          | false => simp [proxyPdfGo, hfetch, hrest]
          | true =>
              have : isPdfHeader body = false := by
                simpa [goodPdf, hfetch] using hu
              simp [proxyPdfGo, hfetch, this, hrest]

theorem proxyPdfGo_firstGood (fetchUrl : List Char → PdfFetch) :
    ∀ (pre : List (List Char)) (u : List Char) (post : List (List Char)) (body : List Nat),
      (∀ v ∈ pre, goodPdf (fetchUrl v) = false) →
      fetchUrl u = .resp true body → isPdfHeader body = true →
      proxyPdfGo fetchUrl (pre ++ u :: post) = .sentPdf (pdfHeadersFor body) body := by
  intro pre
  induction pre with
  | nil =>
      intro u post body _ hu hpdf
      simp [proxyPdfGo, hu, hpdf]
  | cons v rest ih =>
      intro u post body h hu hpdf
      have hv := h v (by simp)
      have step := ih u post body (fun w hw => h w (by simp [hw])) hu hpdf
      cases hfetch : fetchUrl v with
      | fetchErr => simpa [proxyPdfGo, hfetch] using step
      | resp ok bodyv =>
          cases ok with
          | false => simpa [proxyPdfGo, hfetch] using step
          | true =>
              have : isPdfHeader bodyv = false := by
                simpa [goodPdf, hfetch] using hv
              simpa [proxyPdfGo, hfetch, this] using step

theorem proxyPdfGo_sent_inv (fetchUrl : List Char → PdfFetch) :
    ∀ (urls : List (List Char)) (hs : PdfHeaders) (body : List Nat),
      proxyPdfGo fetchUrl urls = .sentPdf hs body →
      hs = pdfHeadersFor body ∧ isPdfHeader body = true ∧
        ∃ u ∈ urls, fetchUrl u = .resp true body := by
  intro urls
  induction urls with
  | nil => intro hs body h; simp [proxyPdfGo] at h
  | cons u rest ih =>
      intro hs body h
      cases hfetch : fetchUrl u with
      | fetchErr =>
          rw [proxyPdfGo, hfetch] at h
          obtain ⟨h1, h2, w, hw, hww⟩ := ih hs body h
          exact ⟨h1, h2, w, by simp [hw], hww⟩
      | resp ok bodyu =>
          cases ok with
          | false =>
              rw [proxyPdfGo, hfetch] at h
              obtain ⟨h1, h2, w, hw, hww⟩ := ih hs body h
              exact ⟨h1, h2, w, by simp [hw], hww⟩
          | true =>
              rw [proxyPdfGo, hfetch] at h
              by_cases hpdf : isPdfHeader bodyu = true
              · have h2 : PdfProxyResult.sentPdf (pdfHeadersFor bodyu) bodyu =
                    .sentPdf hs body := by
                  rw [← h]
                  simp [hpdf]
                cases h2
                exact ⟨rfl, hpdf, u, by simp, hfetch⟩
              · have h2 : proxyPdfGo fetchUrl rest = .sentPdf hs body := by
                  rw [← h]
                  simp [hpdf]
                obtain ⟨h1, h2, w, hw, hww⟩ := ih hs body h2
                exact ⟨h1, h2, w, by simp [hw], hww⟩

/-- C5: the PDF proxy tries the three candidate Google Drive URLs in their
listed order; it sends the fetched bytes with `Content-Type:
application/pdf` and `Access-Control-Allow-Origin: *` exactly when a
candidate responds `ok` with a body starting with the `%PDF` magic
(earlier candidates having failed that test), and responds 404 when no
candidate does. -/
theorem pdf_proxy_first_valid_pdf (fetchUrl : List Char → PdfFetch) (fileId : List Char) :
    ((∀ u ∈ pdfProxyUrls fileId, goodPdf (fetchUrl u) = false) →
      proxyPdf fetchUrl fileId = .notFound pdfNotFoundMsg) ∧
    (∀ (pre : List (List Char)) (u : List Char) (post : List (List Char)) (body : List Nat),
      pdfProxyUrls fileId = pre ++ u :: post →
      (∀ v ∈ pre, goodPdf (fetchUrl v) = false) →
      fetchUrl u = .resp true body → isPdfHeader body = true →
      proxyPdf fetchUrl fileId = .sentPdf (pdfHeadersFor body) body) ∧
    (∀ (hs : PdfHeaders) (body : List Nat),
      proxyPdf fetchUrl fileId = .sentPdf hs body →
      hs.contentType = ("application/pdf".toList) ∧ hs.allowOrigin = ("*".toList) ∧
      isPdfHeader body = true ∧ ∃ u ∈ pdfProxyUrls fileId, fetchUrl u = .resp true body) := by
  refine ⟨proxyPdfGo_notFound fetchUrl (pdfProxyUrls fileId), ?_, ?_⟩
  · intro pre u post body hsplit hpre hu hpdf
    unfold proxyPdf
    rw [hsplit]
    exact proxyPdfGo_firstGood fetchUrl pre u post body hpre hu hpdf
  · intro hs body h
    obtain ⟨h1, h2, w, hw, hww⟩ := proxyPdfGo_sent_inv fetchUrl (pdfProxyUrls fileId) hs body h
    subst h1
    exact ⟨rfl, rfl, h2, w, hw, hww⟩

/-- A fetch oracle for the C5 witness: the first candidate URL returns a
non-PDF body, the second a minimal `%PDF` body, the third throws. -/
def demoPdfFetch : List Char → PdfFetch := fun url =>
  if url = ("https://drive.google.com/uc?export=download&id=".toList) ++ ("f1".toList) then
    .resp true [0x3c, 0x68, 0x74, 0x6d]
  else if url = ("https://drive.usercontent.google.com/download?id=".toList) ++ ("f1".toList) ++
      ("&export=download".toList) then
    .resp true [0x25, 0x50, 0x44, 0x46, 0x2d]
  else .fetchErr

theorem pdf_proxy_first_valid_pdf_witness :
    proxyPdf demoPdfFetch ("f1".toList) =
      .sentPdf (pdfHeadersFor [0x25, 0x50, 0x44, 0x46, 0x2d]) [0x25, 0x50, 0x44, 0x46, 0x2d] := by
  exact (pdf_proxy_first_valid_pdf demoPdfFetch ("f1".toList)).2.1
    [("https://drive.google.com/uc?export=download&id=".toList) ++ ("f1".toList)]
    (("https://drive.usercontent.google.com/download?id=".toList) ++ ("f1".toList) ++
      ("&export=download".toList))
    [("https://docs.google.com/document/d/".toList) ++ ("f1".toList) ++
      ("/export?format=pdf".toList)]
    [0x25, 0x50, 0x44, 0x46, 0x2d]
    (by rfl) (by intro v hv; fin_cases hv; decide) (by rfl) (by decide)

/-- C6 (amended): with a positive estimated lines-per-page
(`⌊viewport.height / 16⌋`), when the try block of the overlay completes,
the preview draws the positioned highlight rectangle iff both endpoints
are present (truthy) and `[from, to]` meets the estimated page
interval `[(currentPage-1)*linesPerPage+1, currentPage*linesPerPage]`,
and draws the indicator banner naming page `⌈from / linesPerPage⌉` when
the range misses the page; but when `page.getTextContent()` or a canvas
call throws, the `catch` draws a fallback rectangle unconditionally, so
a highlight rectangle appears iff both endpoints are truthy and the
range meets the page or the `try` block threw. -/
theorem highlight_rectangle_characterization (textContentOk : Bool)
    (fromLine toLine : Option Int) (currentPage : Int) (h : ℚ)
    (_hlpp : 0 < linesPerPageOf h) :
    (drawsRectangle (renderPageHighlight textContentOk fromLine toLine currentPage h) = true ↔
      (truthyNum fromLine = true ∧ truthyNum toLine = true ∧
        (textContentOk = false ∨
          (fromLine.getD 0 ≤ currentPage * linesPerPageOf h ∧
            (currentPage - 1) * linesPerPageOf h + 1 ≤ toLine.getD 0)))) ∧
    ((∃ s e, renderPageHighlight true fromLine toLine currentPage h = .rectHighlight s e) ↔
      (truthyNum fromLine = true ∧ truthyNum toLine = true ∧
        fromLine.getD 0 ≤ currentPage * linesPerPageOf h ∧
        (currentPage - 1) * linesPerPageOf h + 1 ≤ toLine.getD 0)) ∧
    (∀ (tOk : Bool) (s e : Int),
      renderPageHighlight tOk fromLine toLine currentPage h = .rectHighlight s e →
        s = fromLine.getD 0 ∧ e = toLine.getD 0) ∧
    (truthyNum fromLine = true → truthyNum toLine = true →
      ¬(fromLine.getD 0 ≤ currentPage * linesPerPageOf h ∧
        (currentPage - 1) * linesPerPageOf h + 1 ≤ toLine.getD 0) →
      renderPageHighlight true fromLine toLine currentPage h =
        .pageIndicator ⌈((fromLine.getD 0 : Int) : ℚ) / ((linesPerPageOf h : Int) : ℚ)⌉) ∧
    (truthyNum fromLine = true → truthyNum toLine = true →
      renderPageHighlight false fromLine toLine currentPage h = .fallbackRect) ∧
    (¬(truthyNum fromLine = true ∧ truthyNum toLine = true) →
      ∀ tOk : Bool, renderPageHighlight tOk fromLine toLine currentPage h = .skipped) := by
  by_cases h1 : truthyNum fromLine = true
  · by_cases h2 : truthyNum toLine = true
    · by_cases hint : fromLine.getD 0 ≤ currentPage * linesPerPageOf h ∧
        (currentPage - 1) * linesPerPageOf h + 1 ≤ toLine.getD 0
      · refine ⟨?_, ?_, ?_, ?_, ?_, ?_⟩
        · cases textContentOk with
          | true =>
              simp [renderPageHighlight, addHighlightOverlay, drawsRectangle, h1, h2, hint]
          | false =>
              simp [renderPageHighlight, addHighlightOverlay, drawsRectangle, h1, h2]
        · simp [renderPageHighlight, addHighlightOverlay, h1, h2, hint]
        · intro tOk s e he
          cases tOk with
          | true =>
              simp [renderPageHighlight, addHighlightOverlay, h1, h2, hint] at he
              exact ⟨he.1.symm, he.2.symm⟩
          | false =>
              simp [renderPageHighlight, addHighlightOverlay, h1, h2] at he
        · intro _ _ hno; exact absurd hint hno
        · intro _ _; simp [renderPageHighlight, addHighlightOverlay, h1, h2]
        · intro hno; exact absurd ⟨h1, h2⟩ hno
      · refine ⟨?_, ?_, ?_, ?_, ?_, ?_⟩
        · cases textContentOk with
          | true =>
              simp [renderPageHighlight, addHighlightOverlay, drawsRectangle, h1, h2, hint]
          | false =>
              simp [renderPageHighlight, addHighlightOverlay, drawsRectangle, h1, h2]
        · simp [renderPageHighlight, addHighlightOverlay, h1, h2, hint]
        · intro tOk s e he
          cases tOk with
          | true => simp [renderPageHighlight, addHighlightOverlay, h1, h2, hint] at he
          | false => simp [renderPageHighlight, addHighlightOverlay, h1, h2] at he
        · intro _ _ _
          simp [renderPageHighlight, addHighlightOverlay, h1, h2, hint]
        · intro _ _; simp [renderPageHighlight, addHighlightOverlay, h1, h2]
        · intro hno; exact absurd ⟨h1, h2⟩ hno
    · refine ⟨?_, ?_, ?_, ?_, ?_, ?_⟩
      · simp [renderPageHighlight, drawsRectangle, h1, h2]
      · simp [renderPageHighlight, h1, h2]
      · intro tOk s e he; simp [renderPageHighlight, h1, h2] at he
      · intro _ hx; exact absurd hx h2
      · intro _ hx; exact absurd hx h2
      · intro _ tOk; simp [renderPageHighlight, h1, h2]
  · refine ⟨?_, ?_, ?_, ?_, ?_, ?_⟩
    · simp [renderPageHighlight, drawsRectangle, h1]
    · simp [renderPageHighlight, h1]
    · intro tOk s e he; simp [renderPageHighlight, h1] at he
    · intro hx; exact absurd hx h1
    · intro hx; exact absurd hx h1
    · intro _ tOk; simp [renderPageHighlight, h1]

/-- The range 411-414 misses page 1 of an 800-high viewport (its interval
is [1, 50]), yet when the `try` block of `addHighlightOverlay` throws,
the `catch` draws a highlight rectangle anyway — against the claimed
"rectangle iff the range intersects the page". -/
theorem highlight_fallback_rect_cex :
    renderPageHighlight false (some 411) (some 414) 1 800 = .fallbackRect ∧
    drawsRectangle (renderPageHighlight false (some 411) (some 414) 1 800) = true ∧
    ¬((411 : Int) ≤ 1 * linesPerPageOf 800 ∧
      (1 - 1) * linesPerPageOf 800 + 1 ≤ (414 : Int)) := by
  have hl : linesPerPageOf 800 = 50 := by
    rw [linesPerPageOf, Int.floor_eq_iff] ; norm_num
  refine ⟨rfl, rfl, ?_⟩
  rw [hl]
  intro hc
  omega

theorem highlight_rectangle_characterization_witness :
    renderPageHighlight true (some 411) (some 414) 1 800 = .pageIndicator 9 ∧
    renderPageHighlight true (some 30) (some 35) 1 800 = .rectHighlight 30 35 ∧
    renderPageHighlight false (some 30) (some 35) 1 800 = .fallbackRect := by
  have hl : linesPerPageOf 800 = 50 := by
    rw [linesPerPageOf, Int.floor_eq_iff] ; norm_num
  refine ⟨?_, ?_, ?_⟩
  · have hmain := (highlight_rectangle_characterization true (some 411) (some 414) 1 800
      (by rw [hl]; norm_num)).2.2.2.1 (by decide) (by decide)
      (by rw [hl]; intro hc; simp at hc)
    rw [hmain]
    simp only [Option.getD_some, hl]
    norm_num [Int.ceil_eq_iff]
  · have hiff := (highlight_rectangle_characterization true (some 30) (some 35) 1 800
      (by rw [hl]; norm_num)).2.1
    have hex : ∃ s e, renderPageHighlight true (some 30) (some 35) 1 800 =
        .rectHighlight s e := by
      apply hiff.mpr
      refine ⟨by decide, by decide, ?_, ?_⟩ <;> rw [hl] <;> norm_num
    obtain ⟨s, e, he⟩ := hex
    have hse := (highlight_rectangle_characterization true (some 30) (some 35) 1 800
      (by rw [hl]; norm_num)).2.2.1 true s e he
    rw [he, hse.1, hse.2]
    rfl
  · exact (highlight_rectangle_characterization false (some 30) (some 35) 1 800
      (by rw [hl]; norm_num)).2.2.2.2.1 (by decide) (by decide)

theorem fileIdOk_iff (fid : Option Jval) :
    fileIdOk fid = true ↔
      (otruthy fid = true ∧ fid ≠ some (.jstr ("Not Applicable".toList))) := by
  cases fid with
  | none => simp [fileIdOk, otruthy]
  | some v =>
      cases v with
      | jstr s => simp [fileIdOk, otruthy, jtruthy]
      | jnull => simp [fileIdOk, otruthy, jtruthy]
      | jbool b => cases b with
          | false => simp [fileIdOk, otruthy, jtruthy]
          | true => simp [fileIdOk, otruthy, jtruthy]
      | jnum n => by_cases hn : n = 0
                  · simp [fileIdOk, otruthy, jtruthy, hn]
                  · simp [fileIdOk, otruthy, jtruthy, hn]
      | jarr xs => simp [fileIdOk, otruthy, jtruthy]
      | jobj fs => simp [fileIdOk, otruthy, jtruthy]

/-- C4 (amended): on the answer-building paths of `routes.ts` and of the
variant route file's main object path, the AI message carries the
document reference (fileId, fileName, fileLink, from, to) exactly when
the parsed `FileID` is truthy and not the string `"Not Applicable"`
(`fileIdOk` is precisely that condition, last conjunct); but on the
variant file's string-fallback path (a normalized `output` that is a
string whose extracted and cleaned text parses with a truthy `answer`)
a truthy `FileID` alone suffices, so a `"Not Applicable"` `FileID`
still yields a document reference there. -/
theorem document_reference_iff_fileid (parse : JsonParse) (chatResponse : Jval)
    (pd : Jval) (a : List Char) (now : Int)
    (hpd : parsedDataRT parse (jget chatResponse ("output".toList)) = some pd)
    (htr : jtruthy pd = true)
    (hans : jget pd ("answer".toList) = some (.jstr a)) (hane : a ≠ []) :
    ((buildAiMessageRT parse chatResponse now).documentReference =
      (if fileIdOk (jget pd ("FileID".toList)) then some (docRefOf pd) else none)) ∧
    (∀ outObj : Jval, jtruthy outObj = true → isObjType outObj = true →
      jget outObj ("answer".toList) = some (.jstr a) →
      (buildAiMessageP11 parse outObj now).documentReference =
        (if fileIdOk (jget outObj ("FileID".toList)) then some (docRefOf outObj) else none)) ∧
    (∀ (s : List Char) (obj : Jval) (b : List Char), s ≠ [] →
      parse (cleanP11 ((extractFencedP11 s).getD s)) = some obj →
      jget obj ("answer".toList) = some (.jstr b) → b ≠ [] →
      (buildAiMessageP11 parse (.jstr s) now).documentReference =
        (if otruthy (jget obj ("FileID".toList)) then some (docRefOf obj) else none)) ∧
    (∀ fid : Option Jval, fileIdOk fid = true ↔
      (otruthy fid = true ∧ fid ≠ some (.jstr ("Not Applicable".toList)))) := by
  have hatr : otruthy (some (Jval.jstr a)) = true := by
    simp [otruthy, jtruthy, hane]
  refine ⟨?_, ?_, ?_, fileIdOk_iff⟩
  · unfold buildAiMessageRT
    simp only [hpd, htr, hans, hatr, Bool.and_self, eq_self_iff_true, if_true]
  · intro outObj h1 h2 h3
    unfold buildAiMessageP11
    simp only [h1, h2, h3, hatr, Bool.and_self, eq_self_iff_true, if_true]
  · intro s obj b hs hparse hans2 hbne
    have hemp : s.isEmpty = false := by
      simp [List.isEmpty_iff, hs]
    have hbtr : otruthy (some (Jval.jstr b)) = true := by
      simp [otruthy, jtruthy, hbne]
    unfold buildAiMessageP11
    simp only [jtruthy, isObjType, hemp, hparse, hans2, hbtr, Bool.not_false,
      Bool.and_false, Bool.false_and, Bool.and_self, eq_self_iff_true, if_true,
      Bool.false_eq_true, if_false, not_false_eq_true]

/-- A fenced JSON block whose `FileID` is `"Not Applicable"` (with real
backticks). -/
def cex4Inner : List Char :=
  ("```json \x7b\"answer\": \"y\", \"FileID\": \"Not Applicable\"\x7d```").toList

/-- The same block as a JSON string literal using ``` escapes for the
backticks — the value a webhook can place in its `output` field.  It
contains no backtick character, so the fence regex does not match it, and
`JSON.parse` decodes it to `cex4Inner`. -/
def cex4Outer : List Char :=
  ("\"\\u0060\\u0060\\u0060json \x7b\\\"answer\\\": \\\"y\\\", \\\"FileID\\\": \\\"Not Applicable\\\"\x7d\\u0060\\u0060\\u0060\"").toList

/-- The text the fence regex extracts from `cex4Inner`, after clean-up. -/
def cex4Capture : List Char :=
  ("\x7b\"answer\": \"y\", \"FileID\": \"Not Applicable\"\x7d").toList

/-- The object that text parses to. -/
def cex4Obj : Jval :=
  .jobj [(("answer".toList), .jstr ['y']),
         (("FileID".toList), .jstr ("Not Applicable".toList))]

/-- `JSON.parse` at exactly the two strings this run feeds it, answering
as the real parser does: the string literal decodes to `cex4Inner`, and
the extracted block parses to `cex4Obj`. -/
def cex4Parse : JsonParse := fun s =>
  if s = cex4Outer then some (.jstr cex4Inner)
  else if s = cex4Capture then some cex4Obj
  else none

theorem docref_notapplicable_fallback_cex :
    normalizeParsedOutput cex4Parse (.jobj [(("output".toList), .jstr cex4Outer)]) =
      some (.jstr cex4Inner) ∧
    jget cex4Obj ("FileID".toList) = some (.jstr ("Not Applicable".toList)) ∧
    (buildAiMessageP11 cex4Parse (.jstr cex4Inner) 5).documentReference =
      some (docRefOf cex4Obj) := by
  refine ⟨rfl, rfl, rfl⟩

/-- Parsed data whose `FileID` is the literal `"Not Applicable"`. -/
def pdNA : Jval :=
  .jobj [(("answer".toList), .jstr ("hi".toList)),
         (("FileID".toList), .jstr ("Not Applicable".toList))]

/-- Parsed data with a genuine `FileID`. -/
def pdOK : Jval :=
  .jobj [(("answer".toList), .jstr ("hi".toList)),
         (("FileID".toList), .jstr ['X']),
         (("FileName".toList), .jstr ("n.pdf".toList))]

/-- A `JSON.parse` oracle mapping two fixed body strings to `pdNA` and
`pdOK`. -/
def toyParseC4 : JsonParse := fun s =>
  if s = ("bodyNA".toList) then some pdNA
  else if s = ("bodyOK".toList) then some pdOK
  else none

theorem document_reference_iff_fileid_witness :
    (buildAiMessageRT toyParseC4
        (.jobj [(("output".toList), .jstr ("bodyNA".toList))]) 5).documentReference = none ∧
    (buildAiMessageRT toyParseC4
        (.jobj [(("output".toList), .jstr ("bodyOK".toList))]) 5).documentReference =
      some (docRefOf pdOK) := by
  constructor
  · have h := document_reference_iff_fileid toyParseC4
      (.jobj [(("output".toList), .jstr ("bodyNA".toList))]) pdNA ("hi".toList) 5
      rfl rfl rfl (by decide)
    rw [h.1]
    rfl
  · have h := document_reference_iff_fileid toyParseC4
      (.jobj [(("output".toList), .jstr ("bodyOK".toList))]) pdOK ("hi".toList) 5
      rfl rfl rfl (by decide)
    rw [h.1]
    rfl

/-! ### Characterization of the retry loop (C2) -/

/-- The first attempt (searching from `attempt`, within `fuel` tries) whose
fetch is `ok` with a parsable body, with its parsed value. -/
def firstSuccessGo (parse : JsonParse) (fetchAttempt : Nat → FetchResult) :
    Nat → Nat → Option (Nat × Jval)
  | _, 0 => none
  | attempt, fuel + 1 =>
      match attemptParsed parse fetchAttempt attempt with
      | some pr => some (attempt, pr)
      | none => firstSuccessGo parse fetchAttempt (attempt + 1) fuel

/-- The exponential-backoff waits performed for `n` consecutive failed
attempts starting at `attempt`: `2 ^ j * baseMs` for each failed attempt
`j` that is not the last allowed one. -/
def backoffWaits (maxRetries baseMs : Nat) : Nat → Nat → List Nat
  | _, 0 => []
  | attempt, n + 1 =>
      (if attempt < maxRetries then [2 ^ attempt * baseMs] else []) ++
        backoffWaits maxRetries baseMs (attempt + 1) n

theorem firstSuccessGo_bounds (parse : JsonParse) (fetchAttempt : Nat → FetchResult) :
    ∀ (fuel attempt k : Nat) (pr : Jval),
      firstSuccessGo parse fetchAttempt attempt fuel = some (k, pr) →
      attempt ≤ k ∧ k < attempt + fuel ∧ attemptParsed parse fetchAttempt k = some pr ∧
        (∀ j, attempt ≤ j → j < k → attemptParsed parse fetchAttempt j = none) := by
  intro fuel
  induction fuel with
  | zero => intro attempt k pr h; simp [firstSuccessGo] at h
  | succ n ih =>
      intro attempt k pr h
      rw [firstSuccessGo] at h
      cases hap : attemptParsed parse fetchAttempt attempt with
      | some pr0 =>
          rw [hap] at h
          obtain ⟨hk, hpr⟩ : attempt = k ∧ pr0 = pr := by
            simpa using h
          subst hk; subst hpr
          exact ⟨le_refl _, by omega, hap, fun j h1 h2 => absurd (lt_of_le_of_lt h1 h2) (lt_irrefl _)⟩
      | none =>
          rw [hap] at h
          obtain ⟨h1, h2, h3, h4⟩ := ih (attempt + 1) k pr h
          refine ⟨by omega, by omega, h3, ?_⟩
          intro j hj1 hj2
          rcases Nat.eq_or_lt_of_le hj1 with rfl | hlt
          · exact hap
          · exact h4 j hlt hj2

theorem firstSuccessGo_none_all (parse : JsonParse) (fetchAttempt : Nat → FetchResult) :
    ∀ (fuel attempt : Nat),
      firstSuccessGo parse fetchAttempt attempt fuel = none →
      ∀ k, attempt ≤ k → k < attempt + fuel → attemptParsed parse fetchAttempt k = none := by
  intro fuel
  induction fuel with
  | zero => intro attempt _ k h1 h2; omega
  | succ n ih =>
      intro attempt h k h1 h2
      rw [firstSuccessGo] at h
      cases hap : attemptParsed parse fetchAttempt attempt with
      | some pr0 => rw [hap] at h; simp at h
      | none =>
          rw [hap] at h
          rcases Nat.eq_or_lt_of_le h1 with rfl | hlt
          · exact hap
          · exact ih (attempt + 1) h k hlt (by omega)

theorem retryLoopGo_spec (parse : JsonParse) (fetchAttempt : Nat → FetchResult)
    (maxR baseMs : Nat) :
    ∀ (fuel attempt : Nat),
      retryLoopGo parse fetchAttempt maxR baseMs attempt fuel =
        (match firstSuccessGo parse fetchAttempt attempt fuel with
         | some (k, pr) =>
             ⟨normalizeParsedOutput parse pr,
              backoffWaits maxR baseMs attempt (k - attempt), k - attempt + 1⟩
         | none => ⟨none, backoffWaits maxR baseMs attempt fuel, fuel⟩) := by
  intro fuel
  induction fuel with
  | zero => intro attempt; rfl
  | succ n ih =>
      intro attempt
      rw [retryLoopGo, firstSuccessGo]
      cases hap : attemptParsed parse fetchAttempt attempt with
      | some pr => simp [backoffWaits]
      | none =>
          rw [ih (attempt + 1)]
          cases hfs : firstSuccessGo parse fetchAttempt (attempt + 1) n with
          | none => simp [backoffWaits]
          | some kp =>
              obtain ⟨k, pr⟩ := kp
              have hb := (firstSuccessGo_bounds parse fetchAttempt n (attempt + 1) k pr hfs).1
              have hk1 : k - attempt = (k - (attempt + 1)) + 1 := by omega
              simp only [hk1, backoffWaits]

/-- C2 (amended): every chat request makes at least one and at most
`MAX_RETRIES` (2) webhook attempts; after each failed non-final attempt it
waits `2 ^ attempt * RETRY_DELAY_BASE_MS` ms; every attempt before the
stopping one has failed; and the handler falls back to the mock generator
exactly when the loop assigned no `chatResponse` — which happens either
when every attempt has failed, or when the first successful attempt parsed
to a body whose truthy `output` is neither a string nor an object (Cases
1-5 then assign nothing and the loop still breaks). -/
theorem retry_loop_characterization (parse : JsonParse)
    (fetchAttempt : Nat → FetchResult) (chatInput : List Char) :
    (1 ≤ (retryLoop parse fetchAttempt API_CONFIG).attemptsMade ∧
      (retryLoop parse fetchAttempt API_CONFIG).attemptsMade ≤ API_CONFIG.MAX_RETRIES) ∧
    (match firstSuccessGo parse fetchAttempt 1 API_CONFIG.MAX_RETRIES with
     | some (k, pr) =>
         (retryLoop parse fetchAttempt API_CONFIG).attemptsMade = k ∧
         (retryLoop parse fetchAttempt API_CONFIG).chatResponse =
           normalizeParsedOutput parse pr ∧
         (retryLoop parse fetchAttempt API_CONFIG).waits =
           backoffWaits API_CONFIG.MAX_RETRIES API_CONFIG.RETRY_DELAY_BASE_MS 1 (k - 1) ∧
         (∀ j, 1 ≤ j → j < k → attemptParsed parse fetchAttempt j = none)
     | none =>
         (retryLoop parse fetchAttempt API_CONFIG).attemptsMade = API_CONFIG.MAX_RETRIES ∧
         (retryLoop parse fetchAttempt API_CONFIG).chatResponse = none ∧
         (retryLoop parse fetchAttempt API_CONFIG).waits =
           [2 ^ 1 * API_CONFIG.RETRY_DELAY_BASE_MS] ∧
         (∀ k, 1 ≤ k → k ≤ API_CONFIG.MAX_RETRIES →
           attemptParsed parse fetchAttempt k = none)) ∧
    (∀ out, (retryLoop parse fetchAttempt API_CONFIG).chatResponse = some out →
      webhookOutput parse fetchAttempt API_CONFIG chatInput = out) ∧
    ((retryLoop parse fetchAttempt API_CONFIG).chatResponse = none →
      webhookOutput parse fetchAttempt API_CONFIG chatInput =
        mockFallback parse chatInput) := by
  have hm : API_CONFIG.MAX_RETRIES = 2 := rfl
  have hspec : retryLoop parse fetchAttempt API_CONFIG =
      (match firstSuccessGo parse fetchAttempt 1 API_CONFIG.MAX_RETRIES with
       | some (k, pr) =>
           ⟨normalizeParsedOutput parse pr,
            backoffWaits API_CONFIG.MAX_RETRIES API_CONFIG.RETRY_DELAY_BASE_MS 1 (k - 1),
            k - 1 + 1⟩
       | none =>
           ⟨none,
            backoffWaits API_CONFIG.MAX_RETRIES API_CONFIG.RETRY_DELAY_BASE_MS 1
              API_CONFIG.MAX_RETRIES,
            API_CONFIG.MAX_RETRIES⟩) := by
    have h := retryLoopGo_spec parse fetchAttempt API_CONFIG.MAX_RETRIES
      API_CONFIG.RETRY_DELAY_BASE_MS API_CONFIG.MAX_RETRIES 1
    simpa [retryLoop] using h
  have h4 : ∀ out, (retryLoop parse fetchAttempt API_CONFIG).chatResponse = some out →
      webhookOutput parse fetchAttempt API_CONFIG chatInput = out := by
    intro out hout
    simp only [webhookOutput]
    rw [hout]
  have h5 : (retryLoop parse fetchAttempt API_CONFIG).chatResponse = none →
      webhookOutput parse fetchAttempt API_CONFIG chatInput =
        mockFallback parse chatInput := by
    intro hnone
    simp only [webhookOutput]
    rw [hnone]
  cases hfs : firstSuccessGo parse fetchAttempt 1 API_CONFIG.MAX_RETRIES with
  | some kp =>
      obtain ⟨k, pr⟩ := kp
      rw [hfs] at hspec
      simp only at hspec
      obtain ⟨hb1, hb2, hks, hfail⟩ :=
        firstSuccessGo_bounds parse fetchAttempt API_CONFIG.MAX_RETRIES 1 k pr hfs
      rw [hm] at hb2
      refine ⟨⟨?_, ?_⟩, ?_, h4, h5⟩
      · rw [hspec]; show 1 ≤ k - 1 + 1; omega
      · rw [hspec, hm]; show k - 1 + 1 ≤ 2; omega
      · refine ⟨by rw [hspec]; show k - 1 + 1 = k; omega, by rw [hspec], by rw [hspec], hfail⟩
  | none =>
      rw [hfs] at hspec
      simp only at hspec
      have hall := firstSuccessGo_none_all parse fetchAttempt API_CONFIG.MAX_RETRIES 1 hfs
      refine ⟨⟨?_, ?_⟩, ?_, h4, h5⟩
      · rw [hspec, hm]; show (1 : Nat) ≤ 2; decide
      · rw [hspec]
      · refine ⟨by rw [hspec], by rw [hspec], by rw [hspec]; rfl, ?_⟩
        intro k h1 h2
        rw [hm] at hall
        exact hall k h1 (by omega)

/-- Webhook body for the C2 witness. -/
def wBody : List Char := ("\x7b\"output\": \"hi\"\x7d").toList

/-- `JSON.parse` for the C2 witness: knows only `wBody`. -/
def wParse : JsonParse := fun s =>
  if s = wBody then some (.jobj [(("output".toList), .jstr ("hi".toList))]) else none

/-- A webhook failing on attempt 1 and succeeding on attempt 2. -/
def wFetch : Nat → FetchResult := fun k =>
  if k = 1 then .netErr else .httpResp true wBody

theorem retry_loop_characterization_witness :
    (retryLoop wParse wFetch API_CONFIG).attemptsMade = 2 ∧
    (retryLoop wParse wFetch API_CONFIG).waits = [2000] ∧
    webhookOutput wParse wFetch API_CONFIG ("q".toList) = .jstr ("hi".toList) := by
  have h := retry_loop_characterization wParse wFetch ("q".toList)
  have hbranch : (retryLoop wParse wFetch API_CONFIG).attemptsMade = 2 ∧
      (retryLoop wParse wFetch API_CONFIG).chatResponse =
        normalizeParsedOutput wParse (.jobj [(("output".toList), .jstr ("hi".toList))]) ∧
      (retryLoop wParse wFetch API_CONFIG).waits =
        backoffWaits API_CONFIG.MAX_RETRIES API_CONFIG.RETRY_DELAY_BASE_MS 1 (2 - 1) ∧
      (∀ j, 1 ≤ j → j < 2 → attemptParsed wParse wFetch j = none) := h.2.1
  refine ⟨hbranch.1, ?_, ?_⟩
  · rw [hbranch.2.2.1]
    rfl
  · have hcr : (retryLoop wParse wFetch API_CONFIG).chatResponse =
        some (.jstr ("hi".toList)) := hbranch.2.1.trans rfl
    exact h.2.2.1 (.jstr ("hi".toList)) hcr

/-- A body whose parsed `output` field is the number 42 — valid JSON, so
the attempt does not fail, yet Cases 1-5 assign no `chatResponse`. -/
def cexBody : List Char := ("\x7b\"output\": 42\x7d").toList

/-- `JSON.parse` on exactly that body. -/
def cexParse : JsonParse := fun s =>
  if s = cexBody then some (.jobj [(("output".toList), .jnum 42)]) else none

/-- A webhook that always answers 200 with that body. -/
def cexFetch : Nat → FetchResult := fun _ => .httpResp true cexBody

theorem retry_fallback_without_failure_cex :
    attemptParsed cexParse cexFetch 1 = some (.jobj [(("output".toList), .jnum 42)]) ∧
    retryLoop cexParse cexFetch API_CONFIG =
      ⟨none, [], 1⟩ ∧
    webhookOutput cexParse cexFetch API_CONFIG ("q".toList) =
      mockFallback cexParse ("q".toList) := by
  refine ⟨rfl, rfl, rfl⟩

theorem stripPairsGo_no_head (d0 : Char) (dr : List Char) :
    ∀ (fuel : Nat) (l : List Char), d0 ∉ l → stripPairsGo (d0 :: dr) fuel l = l := by
  intro fuel
  induction fuel with
  | zero => intro l _; rfl
  | succ n ih =>
      intro l hl
      cases l with
      | nil => rfl
      | cons c cs =>
          have hc : ¬(d0 = c) := fun h => hl (by simp [h])
          have hcs : d0 ∉ cs := fun h => hl (by simp [h])
          have hpre : (d0 :: dr).isPrefixOf (c :: cs) = false := by
            simp [List.isPrefixOf, hc]
          rw [stripPairsGo, hpre]
          simp [ih cs hcs]

/-- An answer containing no `*` and no backtick passes through the
`routes.ts` markdown clean-up unchanged. -/
theorem cleanAnswerRT_id (a : List Char) (hstar : '*' ∉ a) (htick : '`' ∉ a) :
    cleanAnswerRT a = a := by
  unfold cleanAnswerRT stripPairs fenceTok
  rw [stripPairsGo_no_head '*' [] (a.length + 1) a hstar,
      stripPairsGo_no_head '`' ['`', '`'] (a.length + 1) a htick,
      stripPairsGo_no_head '`' [] (a.length + 1) a htick]

/-- A short markdown-free answer passes through `formatChatbotResponse`
as its own trim. -/
theorem formatChatbotResponse_simple (a : List Char) (hstar : '*' ∉ a)
    (htick : '`' ∉ a)
    (hlines : ((splitNl a).filter fun l => ¬(trimJS l).isEmpty).length ≤ 2) :
    formatChatbotResponse a = trimJS a := by
  unfold formatChatbotResponse
  have h1 : stripPairs fenceTok a = a := by
    unfold stripPairs fenceTok
    exact stripPairsGo_no_head '`' ['`', '`'] (a.length + 1) a htick
  have h2 : stripPairs ['`'] a = a := by
    unfold stripPairs
    exact stripPairsGo_no_head '`' [] (a.length + 1) a htick
  have h3 : stripPairs ['*'] a = a := by
    unfold stripPairs
    exact stripPairsGo_no_head '*' [] (a.length + 1) a hstar
  rw [h1, h2, h3, if_pos hlines]

/-- C1: both route files normalize each successful webhook response shape
into the single AI message format.  Stage one (Cases 1-5 of the variant
route file) turns the parsed body into the normalized `output`: a string
holding (possibly markdown-fenced) JSON is extracted, cleaned and parsed;
a plain string is kept; an object is kept; a body without `output` is kept
whole.  Stage two builds `{type: 'ai', content, timestamp,
documentReference?, searchInfo?}`, the content coming from the parsed
`answer` field; in `routes.ts` a fenced output string is extracted,
cleaned and parsed the same way, and the (markdown-cleaned) `answer`
becomes the content — verbatim when the answer has no markdown marks. -/
theorem chat_output_shapes_normalized (parse : JsonParse) (now : Int) :
    (∀ (s : List Char) (od : Jval), s ≠ [] →
      parse (cleanP11 ((extractFencedP11 s).getD s)) = some od →
      normalizeParsedOutput parse (.jobj [(("output".toList), .jstr s)]) = some od) ∧
    (∀ s : List Char, s ≠ [] →
      parse (cleanP11 ((extractFencedP11 s).getD s)) = none →
      normalizeParsedOutput parse (.jobj [(("output".toList), .jstr s)]) =
        some (.jstr s)) ∧
    (∀ fs, normalizeParsedOutput parse (.jobj [(("output".toList), .jobj fs)]) =
      some (.jobj fs)) ∧
    (∀ pr : Jval, jget pr ("output".toList) = none →
      normalizeParsedOutput parse pr = some pr) ∧
    (∀ (out : Jval) (a : List Char), isObjType out = true → jtruthy out = true →
      jget out ("answer".toList) = some (.jstr a) → a ≠ [] →
      buildAiMessageP11 parse out now =
        { type := .ai, content := some (.jstr (formatChatbotResponse a)), timestamp := now,
          documentReference :=
            (if fileIdOk (jget out ("FileID".toList)) then some (docRefOf out) else none),
          searchInfo := searchInfoPost (jget out ("searchInfo".toList)) }) ∧
    (∀ s : List Char, s ≠ [] →
      parse (cleanP11 ((extractFencedP11 s).getD s)) = none →
      buildAiMessageP11 parse (.jstr s) now =
        { type := .ai, content := some (.jstr s), timestamp := now,
          documentReference := none, searchInfo := none }) ∧
    (∀ (s cap : List Char) (obj : Jval) (a : List Char),
      parse s = none → extractFencedRT s = some cap →
      parse (cleanRT cap) = some obj → jtruthy obj = true →
      jget obj ("answer".toList) = some (.jstr a) → a ≠ [] →
      buildAiMessageRT parse (.jobj [(("output".toList), .jstr s)]) now =
        { type := .ai, content := some (.jstr (cleanAnswerRT a)), timestamp := now,
          documentReference :=
            (if fileIdOk (jget obj ("FileID".toList)) then some (docRefOf obj) else none),
          searchInfo := searchInfoPost (jget obj ("searchInfo".toList)) }) ∧
    (∀ a : List Char, '*' ∉ a → '`' ∉ a → cleanAnswerRT a = a) ∧
    (∀ a : List Char, '*' ∉ a → '`' ∉ a →
      ((splitNl a).filter fun l => ¬(trimJS l).isEmpty).length ≤ 2 →
      formatChatbotResponse a = trimJS a) := by
  refine ⟨?_, ?_, ?_, ?_, ?_, ?_, ?_, cleanAnswerRT_id, formatChatbotResponse_simple⟩
  · intro s od hs hparse
    unfold normalizeParsedOutput
    simp [jget, jtruthy, hs, hparse]
  · intro s hs hparse
    unfold normalizeParsedOutput
    simp [jget, jtruthy, hs, hparse]
  · intro fs
    unfold normalizeParsedOutput
    simp [jget, jtruthy]
  · intro pr hout
    unfold normalizeParsedOutput
    rw [hout]
  · intro out a hobj htr hans hane
    have hatr : otruthy (some (Jval.jstr a)) = true := by
      simp [otruthy, jtruthy, hane]
    unfold buildAiMessageP11
    simp only [htr, hobj, hans, hatr, Bool.and_self, eq_self_iff_true, if_true]
  · intro s hs hparse
    have hemp : s.isEmpty = false := by
      simp [List.isEmpty_iff, hs]
    unfold buildAiMessageP11
    simp [jtruthy, isObjType, jget, hemp, hparse]
  · intro s cap obj a hps hcap hpc htr hans hane
    have hatr : otruthy (some (Jval.jstr a)) = true := by
      simp [otruthy, jtruthy, hane]
    have hpd : parsedDataRT parse
        (jget (.jobj [(("output".toList), .jstr s)]) ("output".toList)) = some obj := by
      unfold parsedDataRT jsonParseAny
      simp [jget, jsToString, hps, hcap, hpc]
    unfold buildAiMessageRT
    simp only [hpd, htr, hans, hatr, Bool.and_self, eq_self_iff_true, if_true]

/-- A fenced webhook output string for the C1 witness. -/
def c1Fenced : List Char := ("```json\n\x7b\"answer\": \"Paris\"\x7d\n```").toList

/-- Its extracted and cleaned JSON text. -/
def c1Clean : List Char := ("\x7b\"answer\": \"Paris\"\x7d").toList

/-- The parsed object. -/
def c1Obj : Jval := .jobj [(("answer".toList), .jstr ("Paris".toList))]

/-- A `JSON.parse` oracle knowing exactly the cleaned C1 text. -/
def toyParseC1 : JsonParse := fun s => if s = c1Clean then some c1Obj else none

theorem chat_output_shapes_normalized_witness :
    normalizeParsedOutput toyParseC1 (.jobj [(("output".toList), .jstr c1Fenced)]) =
      some c1Obj ∧
    buildAiMessageP11 toyParseC1 c1Obj 3 =
      { type := .ai, content := some (.jstr ("Paris".toList)), timestamp := 3,
        documentReference := none, searchInfo := none } ∧
    buildAiMessageRT toyParseC1 (.jobj [(("output".toList), .jstr c1Fenced)]) 3 =
      { type := .ai, content := some (.jstr ("Paris".toList)), timestamp := 3,
        documentReference := none, searchInfo := none } := by
  have h := chat_output_shapes_normalized toyParseC1 3
  refine ⟨?_, ?_, ?_⟩
  · exact h.1 c1Fenced c1Obj (by decide) rfl
  · have h5 := h.2.2.2.2.1 c1Obj ("Paris".toList) rfl rfl rfl (by decide)
    rw [h5]
    have h9 := h.2.2.2.2.2.2.2.2 ("Paris".toList) (by decide) (by decide) (by decide)
    rw [h9]
    rfl
  · have h7 := h.2.2.2.2.2.2.1 c1Fenced c1Clean c1Obj ("Paris".toList)
      rfl rfl rfl rfl rfl (by decide)
    rw [h7]
    have h8 := h.2.2.2.2.2.2.2.1 ("Paris".toList) (by decide) (by decide)
    rw [h8]
    rfl

end ChatBot
